import Mathlib

/-!
# hello-triangle-opengl: a trace model of `main.cpp`

The program is a straight line of calls into GLFW, GLAD and OpenGL followed by a
render loop.  Every call into a library is recorded as an `Event`; calls that hand
a value back to the program carry that value, which is supplied by an `Env`
(the answers of the window system, the loader and the driver).  The functions of
`main.cpp` are translated one by one: `framebuffer_size_callback`, `processInput`,
`checkCompilationOrLinking` and `main`.  The callback that `main` registers is run
by GLFW inside `glfwPollEvents`, once for every framebuffer-size event the window
system delivers there, and its calls are part of the trace.  The render loop is the
only construct that may run forever, so `main` takes a bound on the number of loop
checks it is observed for; a run that is still inside the loop when the bound is
reached has no exit code.
-/

namespace HelloTriangle

/-! ## Constants of `main.cpp` -/

/-- The two tags of `enum shaderType`. -/
inductive shaderType
  | SHADER
  | PROGRAM
  deriving DecidableEq, Repr

def MAJOR_VERSION : Int := 3

def MINOR_VERSION : Int := 3

def WIDTH : Int := 800

def HEIGHT : Int := 600

def TITLE : String := "Learn OpenGl"

/-- The text of `vertexShaderSource` as a C string: it ends at the first NUL. -/
def vertexShaderSource : String :=
  "#version 330 core\nlayout (location = 0) in vec3 aPos;\nvoid main()\n\x7b\n   gl_Position = vec4(aPos.x, aPos.y, aPos.z, 1.0);\n\x7d"

/-- The text of `fragmentShaderSource` as a C string: it ends at the first NUL. -/
def fragmentShaderSource : String :=
  "#version 330 core\nout vec4 FragColor;\nvoid main()\n\x7b\n   FragColor = vec4(0.0f, 0.4745f, 0.7215f, 1.0f);\n\x7d\n"

/-! ## Constants of the GLFW and OpenGL headers used by `main.cpp` -/

def GLFW_CONTEXT_VERSION_MAJOR : Int := 0x00022002

def GLFW_CONTEXT_VERSION_MINOR : Int := 0x00022003

def GLFW_OPENGL_FORWARD_COMPAT : Int := 0x00022006

def GLFW_OPENGL_PROFILE : Int := 0x00022008

def GLFW_OPENGL_CORE_PROFILE : Int := 0x00032001

def GLFW_KEY_ESCAPE : Int := 256

def GLFW_PRESS : Int := 1

def GL_TRUE : Int := 1

def GL_FALSE : Nat := 0

def GL_TRIANGLES : Nat := 0x0004

def GL_FLOAT : Nat := 0x1406

def GL_COLOR_BUFFER_BIT : Nat := 0x00004000

def GL_ARRAY_BUFFER : Nat := 0x8892

def GL_STATIC_DRAW : Nat := 0x88E4

def GL_FRAGMENT_SHADER : Nat := 0x8B30

def GL_VERTEX_SHADER : Nat := 0x8B31

def GL_COMPILE_STATUS : Nat := 0x8B81

def GL_LINK_STATUS : Nat := 0x8B82

/-! ## Calls into the libraries -/

/-- One call issued by the program.  Handles (window, buffer, shader, program) are
natural numbers, `0` being the null pointer for a window.  A trailing `result`
argument is the value the library handed back.  Float literals of the source
(`-0.5f`, `0.0f`, `0.5f`, `1.0f`) are exact binary fractions and are kept as
rationals. -/
inductive Event
  | glfwInit
  | glfwWindowHint (hint value : Int)
  | glfwCreateWindow (width height : Int) (title : String) (result : Nat)
  | println (text : String)
  | glfwTerminate
  | glfwMakeContextCurrent (window : Nat)
  | glfwSetFramebufferSizeCallback (window : Nat)
  | gladLoadGLLoader (result : Int)
  | glViewport (x y width height : Int)
  | glGenVertexArrays (n : Nat) (result : Nat)
  | glBindVertexArray (array : Nat)
  | glGenBuffers (n : Nat) (result : Nat)
  | glBindBuffer (target buffer : Nat)
  | glBufferData (target size : Nat) (data : List ℚ) (usage : Nat)
  | glVertexAttribPointer (index size type normalized stride pointer : Nat)
  | glEnableVertexAttribArray (index : Nat)
  | glCreateShader (type : Nat) (result : Nat)
  | glShaderSource (shader count : Nat) (source : String)
  | glCompileShader (shader : Nat)
  | glGetShaderiv (shader pname : Nat) (result : Int)
  | glGetShaderInfoLog (shader bufSize : Nat) (infoLog : List Char)
  | glCreateProgram (result : Nat)
  | glAttachShader (program shader : Nat)
  | glLinkProgram (program : Nat)
  | glGetProgramiv (program pname : Nat) (result : Int)
  | glGetProgramInfoLog (program bufSize : Nat) (infoLog : List Char)
  | glDeleteShader (shader : Nat)
  | glfwWindowShouldClose (window : Nat) (result : Bool)
  | glfwGetKey (window : Nat) (key : Int) (result : Int)
  | glfwSetWindowShouldClose (window : Nat) (value : Bool)
  | glClearColor (red green blue alpha : ℚ)
  | glClear (mask : Nat)
  | glUseProgram (program : Nat)
  | glDrawArrays (mode first count : Nat)
  | glfwSwapBuffers (window : Nat)
  | glfwPollEvents
  | glDeleteVertexArrays (n : Nat) (array : Nat)
  | glDeleteBuffers (n : Nat) (buffer : Nat)
  | glDeleteProgram (program : Nat)

/-- The answers of the OpenGL driver to the queries of `checkCompilationOrLinking`:
the status of a shader or program object, and the full text of its info log. -/
structure Driver where
  shaderiv : Nat → Nat → Int
  programiv : Nat → Nat → Int
  shaderInfoLog : Nat → List Char
  programInfoLog : Nat → List Char

/-- Everything the program receives from outside: the platform (`__APPLE__`,
`sizeof(float)`), the handles created by the libraries, the driver, and for the
render loop the close flag of the fresh window, the key state reported in each
iteration, what `glfwPollEvents` does to the close flag in each iteration, and the
framebuffer-size events (new width and height) that `glfwPollEvents` delivers in
each iteration. -/
structure Env where
  apple : Bool
  sizeofFloat : Nat
  window : Nat
  loader : Int
  vao : Nat
  vbo : Nat
  vertexShader : Nat
  fragmentShader : Nat
  shaderProgram : Nat
  driver : Driver
  shouldClose0 : Bool
  getKey : Nat → Nat → Int → Int
  pollEvents : Nat → Bool → Bool
  resizeEvents : Nat → List (Int × Int)

/-- The outcome of observing `main`: the calls issued so far, and the value
returned by `main` if it has returned. -/
structure Run where
  trace : List Event
  exitCode : Option Int

/-! ## The functions of `main.cpp` -/

/-- The resize callback: one `glViewport` call.  It is registered by `main` with
`glfwSetFramebufferSizeCallback` and run by GLFW. -/
def framebuffer_size_callback (_window : Nat) (width height : Int) : List Event :=
  [.glViewport 0 0 width height]

/-- The calls made while `glfwPollEvents` of iteration `iter` dispatches its events:
GLFW runs the registered `framebuffer_size_callback` once for every framebuffer-size
event, in the order of the events. -/
def pollCallbacks (env : Env) (iter : Nat) (window : Nat) : List Event :=
  (env.resizeEvents iter).flatMap (fun size => framebuffer_size_callback window size.1 size.2)

/-- What `glGetShaderInfoLog` and `glGetProgramInfoLog` store in a buffer of
`bufSize` characters: the log cut to `bufSize - 1` characters (the last place
holds the terminator). -/
def writeInfoLog (bufSize : Nat) (log : List Char) : List Char :=
  log.take (bufSize - 1)

/-- The function `processInput` in iteration `iter`, started with close flag
`flag`: the calls issued and the close flag afterwards. -/
def processInput (env : Env) (iter : Nat) (window : Nat) (flag : Bool) :
    List Event × Bool :=
  let key := env.getKey iter window GLFW_KEY_ESCAPE
  if key = GLFW_PRESS then
    ([.glfwGetKey window GLFW_KEY_ESCAPE key, .glfwSetWindowShouldClose window true], true)
  else
    ([.glfwGetKey window GLFW_KEY_ESCAPE key], flag)

/-- The function `checkCompilationOrLinking`: the calls issued (printing included)
and the returned boolean. -/
def checkCompilationOrLinking (drv : Driver) (shader : Nat) (type : shaderType) :
    List Event × Bool :=
  match type with
  | .SHADER =>
    let success := drv.shaderiv shader GL_COMPILE_STATUS
    let query := Event.glGetShaderiv shader GL_COMPILE_STATUS success
    if success = 0 then
      let infoLog := writeInfoLog 512 (drv.shaderInfoLog shader)
      ([query, .glGetShaderInfoLog shader 512 infoLog,
        .println ("Failed to compile the shader: " ++ String.mk infoLog)], false)
    else
      ([query], true)
  | .PROGRAM =>
    let success := drv.programiv shader GL_LINK_STATUS
    let query := Event.glGetProgramiv shader GL_LINK_STATUS success
    if success = 0 then
      let infoLog := writeInfoLog 512 (drv.programInfoLog shader)
      ([query, .glGetProgramInfoLog shader 512 infoLog,
        .println ("Failed to link the shader: " ++ String.mk infoLog)], false)
    else
      ([query], true)

/-- The array `vertices` of `main`. -/
def vertices : List ℚ :=
  [-0.5, -0.5, 0.0, 0.5, -0.5, 0.0, 0.0, 0.5, 0.0]

/-- The body of the render loop in iteration `iter`, entered with close flag
`flag`: the calls issued, those of the callback run inside `glfwPollEvents`
included, and the close flag after `glfwPollEvents`. -/
def frame (env : Env) (iter : Nat) (window shaderProgram vao : Nat) (flag : Bool) :
    List Event × Bool :=
  let input := processInput env iter window flag
  (input.1 ++
    [.glClearColor 1.0 1.0 1.0 1.0,
     .glClear GL_COLOR_BUFFER_BIT,
     .glUseProgram shaderProgram,
     .glBindVertexArray vao,
     .glDrawArrays GL_TRIANGLES 0 3,
     .glfwSwapBuffers window,
     .glfwPollEvents] ++
    pollCallbacks env iter window,
   env.pollEvents iter input.2)

/-- The `while (!glfwWindowShouldClose(window))` loop, observed for at most `fuel`
loop checks, starting with iteration number `iter` and close flag `flag`: the calls
issued, and whether the loop was left. -/
def renderLoop (env : Env) (window shaderProgram vao : Nat) :
    Nat → Nat → Bool → List Event × Bool
  | 0, _, _ => ([], false)
  | fuel + 1, iter, flag =>
    if flag then
      ([.glfwWindowShouldClose window true], true)
    else
      let body := frame env iter window shaderProgram vao flag
      let rest := renderLoop env window shaderProgram vao fuel (iter + 1) body.2
      (.glfwWindowShouldClose window false :: (body.1 ++ rest.1), rest.2)

/-- The function `main`, its render loop observed for at most `fuel` loop checks. -/
def main (env : Env) (fuel : Nat) : Run :=
  let t0 : List Event :=
    [Event.glfwInit,
     Event.glfwWindowHint GLFW_CONTEXT_VERSION_MAJOR MAJOR_VERSION,
     Event.glfwWindowHint GLFW_CONTEXT_VERSION_MINOR MINOR_VERSION,
     Event.glfwWindowHint GLFW_OPENGL_PROFILE GLFW_OPENGL_CORE_PROFILE]
  let t1 : List Event :=
    if env.apple then t0 ++ [Event.glfwWindowHint GLFW_OPENGL_FORWARD_COMPAT GL_TRUE] else t0
  let window : Nat := env.window
  let t2 : List Event := t1 ++ [Event.glfwCreateWindow WIDTH HEIGHT TITLE window]
  if window = 0 then
    Run.mk (t2 ++ [Event.println "Failed to create GLFW window", Event.glfwTerminate]) (some (-1))
  else
  let t3 : List Event :=
    t2 ++ [Event.glfwMakeContextCurrent window, Event.glfwSetFramebufferSizeCallback window]
  let loaded : Int := env.loader
  let t4 : List Event := t3 ++ [Event.gladLoadGLLoader loaded]
  if loaded = 0 then
    Run.mk (t4 ++ [Event.println "Failed to load OpenGL functions", Event.glfwTerminate])
      (some (-1))
  else
  let vao : Nat := env.vao
  let t5 : List Event := t4 ++ [Event.glGenVertexArrays 1 vao, Event.glBindVertexArray vao]
  let vbo : Nat := env.vbo
  let t6 : List Event := t5 ++ [Event.glGenBuffers 1 vbo, Event.glBindBuffer GL_ARRAY_BUFFER vbo]
  let t7 : List Event :=
    t6 ++ [Event.glBufferData GL_ARRAY_BUFFER (vertices.length * env.sizeofFloat) vertices
            GL_STATIC_DRAW]
  let t8 : List Event :=
    t7 ++ [Event.glVertexAttribPointer 0 3 GL_FLOAT GL_FALSE (3 * env.sizeofFloat) 0,
           Event.glEnableVertexAttribArray 0]
  let vertexShader : Nat := env.vertexShader
  let t9 : List Event :=
    t8 ++ [Event.glCreateShader GL_VERTEX_SHADER vertexShader,
           Event.glShaderSource vertexShader 1 vertexShaderSource,
           Event.glCompileShader vertexShader]
  let check1 := checkCompilationOrLinking env.driver vertexShader shaderType.SHADER
  let t10 : List Event := t9 ++ check1.1
  if !check1.2 then Run.mk t10 (some (-1))
  else
  let fragmentShader : Nat := env.fragmentShader
  let t11 : List Event :=
    t10 ++ [Event.glCreateShader GL_FRAGMENT_SHADER fragmentShader,
            Event.glShaderSource fragmentShader 1 fragmentShaderSource,
            Event.glCompileShader fragmentShader]
  let check2 := checkCompilationOrLinking env.driver fragmentShader shaderType.SHADER
  let t12 : List Event := t11 ++ check2.1
  if !check2.2 then Run.mk t12 (some (-1))
  else
  let shaderProgram : Nat := env.shaderProgram
  let t13 : List Event :=
    t12 ++ [Event.glCreateProgram shaderProgram,
            Event.glAttachShader shaderProgram vertexShader,
            Event.glAttachShader shaderProgram fragmentShader,
            Event.glLinkProgram shaderProgram]
  let check3 := checkCompilationOrLinking env.driver shaderProgram shaderType.PROGRAM
  let t14 : List Event := t13 ++ check3.1
  if !check3.2 then Run.mk t14 (some (-1))
  else
  let t15 : List Event :=
    t14 ++ [Event.glDeleteShader vertexShader, Event.glDeleteShader fragmentShader]
  let loop := renderLoop env window shaderProgram vao fuel 0 env.shouldClose0
  let t16 : List Event := t15 ++ loop.1
  if !loop.2 then Run.mk t16 none
  else
    Run.mk
      (t16 ++ [Event.glDeleteVertexArrays 1 vao, Event.glDeleteBuffers 1 vbo,
               Event.glDeleteProgram shaderProgram, Event.glfwTerminate])
      (some 0)

/-! ## Vocabulary for the statements -/

/-- The compile status the driver reports for the vertex shader of `main`. -/
def vertexStatus (env : Env) : Int :=
  env.driver.shaderiv env.vertexShader GL_COMPILE_STATUS

/-- The compile status the driver reports for the fragment shader of `main`. -/
def fragmentStatus (env : Env) : Int :=
  env.driver.shaderiv env.fragmentShader GL_COMPILE_STATUS

/-- The link status the driver reports for the program of `main`. -/
def linkStatus (env : Env) : Int :=
  env.driver.programiv env.shaderProgram GL_LINK_STATUS

/-- One of the five startup checks of `main` reports failure. -/
def startupFails (env : Env) : Prop :=
  env.window = 0 ∨ env.loader = 0 ∨ vertexStatus env = 0 ∨ fragmentStatus env = 0 ∨
    linkStatus env = 0

instance (env : Env) : Decidable (startupFails env) := by
  unfold startupFails
  infer_instance

/-- The close flag seen by loop check number `k`, when the loop runs that long. -/
def closeFlagAt (env : Env) : Nat → Bool
  | 0 => env.shouldClose0
  | k + 1 => (frame env k env.window env.shaderProgram env.vao (closeFlagAt env k)).2

/-- The seven calls the loop body issues after `processInput`. -/
def drawCalls (window shaderProgram vao : Nat) : List Event :=
  [Event.glClearColor 1 1 1 1,
   Event.glClear GL_COLOR_BUFFER_BIT,
   Event.glUseProgram shaderProgram,
   Event.glBindVertexArray vao,
   Event.glDrawArrays GL_TRIANGLES 0 3,
   Event.glfwSwapBuffers window,
   Event.glfwPollEvents]

/-- The calls of the loop body in iteration `i`: those of `processInput`, the seven
fixed calls, and the calls of the callback run inside `glfwPollEvents`. -/
def bodyCalls (env : Env) (i : Nat) (window shaderProgram vao : Nat) : List Event :=
  (processInput env i window false).1 ++ drawCalls window shaderProgram vao ++
    pollCallbacks env i window

/-- The calls of one whole iteration number `i`, the loop check included. -/
def iterationCalls (env : Env) (i : Nat) : List Event :=
  Event.glfwWindowShouldClose env.window false ::
    bodyCalls env i env.window env.shaderProgram env.vao

/-- The calls of the iterations `i`, `i + 1`, ..., `i + n - 1`. -/
def iterationsFrom (env : Env) (i : Nat) : Nat → List Event
  | 0 => []
  | n + 1 => iterationCalls env i ++ iterationsFrom env (i + 1) n

/-- The calls after the render loop. -/
def teardownCalls (env : Env) : List Event :=
  [Event.glDeleteVertexArrays 1 env.vao, Event.glDeleteBuffers 1 env.vbo,
   Event.glDeleteProgram env.shaderProgram, Event.glfwTerminate]

/-- The calls up to and including `glfwCreateWindow`. -/
def windowCalls (env : Env) : List Event :=
  [Event.glfwInit,
   Event.glfwWindowHint GLFW_CONTEXT_VERSION_MAJOR MAJOR_VERSION,
   Event.glfwWindowHint GLFW_CONTEXT_VERSION_MINOR MINOR_VERSION,
   Event.glfwWindowHint GLFW_OPENGL_PROFILE GLFW_OPENGL_CORE_PROFILE] ++
  (if env.apple then [Event.glfwWindowHint GLFW_OPENGL_FORWARD_COMPAT GL_TRUE] else []) ++
  [Event.glfwCreateWindow WIDTH HEIGHT TITLE env.window]

/-- The calls from `glfwMakeContextCurrent` to `gladLoadGLLoader`. -/
def loaderCalls (env : Env) : List Event :=
  [Event.glfwMakeContextCurrent env.window, Event.glfwSetFramebufferSizeCallback env.window,
   Event.gladLoadGLLoader env.loader]

/-- The calls of the geometry setup. -/
def geometryCalls (env : Env) : List Event :=
  [Event.glGenVertexArrays 1 env.vao,
   Event.glBindVertexArray env.vao,
   Event.glGenBuffers 1 env.vbo,
   Event.glBindBuffer GL_ARRAY_BUFFER env.vbo,
   Event.glBufferData GL_ARRAY_BUFFER (vertices.length * env.sizeofFloat) vertices GL_STATIC_DRAW,
   Event.glVertexAttribPointer 0 3 GL_FLOAT GL_FALSE (3 * env.sizeofFloat) 0,
   Event.glEnableVertexAttribArray 0]

/-- The calls that create and compile the vertex shader, status query excluded. -/
def vertexShaderCalls (env : Env) : List Event :=
  [Event.glCreateShader GL_VERTEX_SHADER env.vertexShader,
   Event.glShaderSource env.vertexShader 1 vertexShaderSource,
   Event.glCompileShader env.vertexShader]

/-- The calls that create and compile the fragment shader, status query excluded. -/
def fragmentShaderCalls (env : Env) : List Event :=
  [Event.glCreateShader GL_FRAGMENT_SHADER env.fragmentShader,
   Event.glShaderSource env.fragmentShader 1 fragmentShaderSource,
   Event.glCompileShader env.fragmentShader]

/-- The calls that create and link the program, status query excluded. -/
def programCalls (env : Env) : List Event :=
  [Event.glCreateProgram env.shaderProgram,
   Event.glAttachShader env.shaderProgram env.vertexShader,
   Event.glAttachShader env.shaderProgram env.fragmentShader,
   Event.glLinkProgram env.shaderProgram]

/-- The three status queries of `main`, with the answers of the driver. -/
def vertexQuery (env : Env) : Event :=
  Event.glGetShaderiv env.vertexShader GL_COMPILE_STATUS (vertexStatus env)

def fragmentQuery (env : Env) : Event :=
  Event.glGetShaderiv env.fragmentShader GL_COMPILE_STATUS (fragmentStatus env)

def linkQuery (env : Env) : Event :=
  Event.glGetProgramiv env.shaderProgram GL_LINK_STATUS (linkStatus env)

/-- The calls before the vertex shader is checked. -/
def preCheckCalls (env : Env) : List Event :=
  windowCalls env ++ loaderCalls env ++ geometryCalls env ++ vertexShaderCalls env

/-- Every call before the first loop check, when all five startup checks pass. -/
def setupCalls (env : Env) : List Event :=
  preCheckCalls env ++ vertexQuery env :: (fragmentShaderCalls env ++
    fragmentQuery env :: (programCalls env ++
      [linkQuery env, Event.glDeleteShader env.vertexShader,
       Event.glDeleteShader env.fragmentShader]))

/-- The calls that occur only while the render loop runs: those of the loop body
other than `glBindVertexArray`, and the `glViewport` of the resize callback. -/
def Event.isLoopOnly : Event → Bool
  | .glViewport _ _ _ _ => true
  | .glfwWindowShouldClose _ _ => true
  | .glfwGetKey _ _ _ => true
  | .glfwSetWindowShouldClose _ _ => true
  | .glClearColor _ _ _ _ => true
  | .glClear _ => true
  | .glUseProgram _ => true
  | .glDrawArrays _ _ _ => true
  | .glfwSwapBuffers _ => true
  | .glfwPollEvents => true
  | _ => false

/-- The calls that occur while the render loop runs: those of `isLoopOnly` and
`glBindVertexArray`. -/
def Event.isLoopCall : Event → Bool
  | .glBindVertexArray _ => true
  | e => e.isLoopOnly

def Event.isDraw : Event → Bool
  | .glDrawArrays _ _ _ => true
  | _ => false

def Event.isLoopCheck : Event → Bool
  | .glfwWindowShouldClose _ _ => true
  | _ => false

def Event.isBufferData : Event → Bool
  | .glBufferData _ _ _ _ => true
  | _ => false

def Event.isVertexAttribPointer : Event → Bool
  | .glVertexAttribPointer _ _ _ _ _ _ => true
  | _ => false

def Event.isDeleteShader : Event → Bool
  | .glDeleteShader _ => true
  | _ => false

def Event.isDeleteProgram : Event → Bool
  | .glDeleteProgram _ => true
  | _ => false

def Event.isDeleteVertexArrays : Event → Bool
  | .glDeleteVertexArrays _ _ => true
  | _ => false

def Event.isDeleteBuffers : Event → Bool
  | .glDeleteBuffers _ _ => true
  | _ => false

def Event.isTerminate : Event → Bool
  | .glfwTerminate => true
  | _ => false

/-- The status queries of `checkCompilationOrLinking`. -/
def Event.isStatusQuery : Event → Bool
  | .glGetShaderiv _ _ _ => true
  | .glGetProgramiv _ _ _ => true
  | _ => false

/-- The calls named `gl...` (OpenGL), as opposed to `glfw...`, `glad...` and printing. -/
def Event.isGL : Event → Bool
  | .glfwInit => false
  | .glfwWindowHint _ _ => false
  | .glfwCreateWindow _ _ _ _ => false
  | .println _ => false
  | .glfwTerminate => false
  | .glfwMakeContextCurrent _ => false
  | .glfwSetFramebufferSizeCallback _ => false
  | .gladLoadGLLoader _ => false
  | .glfwWindowShouldClose _ _ => false
  | .glfwGetKey _ _ _ => false
  | .glfwSetWindowShouldClose _ _ => false
  | .glfwSwapBuffers _ => false
  | .glfwPollEvents => false
  | _ => true

/-- The vertex array bound after a sequence of calls (`0`: none). -/
def boundVertexArray (t : List Event) : Nat :=
  t.foldl (fun cur e => match e with
    | .glBindVertexArray a => a
    | _ => cur) 0

/-- The buffer bound to `target` after a sequence of calls (`0`: none). -/
def boundBuffer (target : Nat) (t : List Event) : Nat :=
  t.foldl (fun cur e => match e with
    | .glBindBuffer tg b => if tg = target then b else cur
    | _ => cur) 0

/-! ## Example environments -/

/-- A driver that reports success for every object and has empty logs. -/
def workingDriver : Driver :=
  { shaderiv := fun _ _ => 1
    programiv := fun _ _ => 1
    shaderInfoLog := fun _ => []
    programInfoLog := fun _ => [] }

/-- A run on a platform with 4-byte floats in which startup succeeds, the window is
never resized and the escape key is reported pressed in the second iteration. -/
def escapeEnv : Env :=
  { apple := false
    sizeofFloat := 4
    window := 7
    loader := 1
    vao := 1
    vbo := 1
    vertexShader := 1
    fragmentShader := 2
    shaderProgram := 3
    driver := workingDriver
    shouldClose0 := false
    getKey := fun i _ _ => if i = 1 then 1 else 0
    pollEvents := fun _ flag => flag
    resizeEvents := fun _ => [] }

/-- The environment `escapeEnv` with the window resized to 1024 by 768 during the
first iteration. -/
def resizeEnv : Env :=
  { escapeEnv with resizeEvents := fun i => if i = 0 then [(1024, 768)] else [] }

/-- A driver for which compiling shader object 1 fails with the log `bad`. -/
def brokenDriver : Driver :=
  { shaderiv := fun shader _ => if shader = 1 then 0 else 1
    programiv := fun _ _ => 1
    shaderInfoLog := fun _ => ['b', 'a', 'd']
    programInfoLog := fun _ => [] }

/-- The environment `escapeEnv` with a vertex shader that does not compile. -/
def brokenShaderEnv : Env :=
  { escapeEnv with driver := brokenDriver }

/-! ## The paths of `main` -/

theorem main_window_null (env : Env) (fuel : Nat) (hw : env.window = 0) :
    main env fuel =
      ⟨windowCalls env ++ [Event.println "Failed to create GLFW window", Event.glfwTerminate],
        some (-1)⟩ := by
  cases ha : env.apple <;> simp [main, hw, ha, windowCalls]

theorem main_loader_fails (env : Env) (fuel : Nat) (hw : env.window ≠ 0) (hl : env.loader = 0) :
    main env fuel =
      ⟨windowCalls env ++ loaderCalls env ++
        [Event.println "Failed to load OpenGL functions", Event.glfwTerminate], some (-1)⟩ := by
  cases ha : env.apple <;> simp [main, hw, hl, ha, windowCalls, loaderCalls]

theorem main_vertex_fails (env : Env) (fuel : Nat) (hw : env.window ≠ 0) (hl : env.loader ≠ 0)
    (hv : vertexStatus env = 0) :
    main env fuel =
      ⟨preCheckCalls env ++
        (checkCompilationOrLinking env.driver env.vertexShader shaderType.SHADER).1,
        some (-1)⟩ := by
  unfold vertexStatus at hv
  cases ha : env.apple <;>
    simp [main, hw, hl, hv, ha, preCheckCalls, windowCalls, loaderCalls, geometryCalls,
      vertexShaderCalls, checkCompilationOrLinking]

theorem main_fragment_fails (env : Env) (fuel : Nat) (hw : env.window ≠ 0)
    (hl : env.loader ≠ 0) (hv : vertexStatus env ≠ 0) (hf : fragmentStatus env = 0) :
    main env fuel =
      ⟨preCheckCalls env ++ vertexQuery env :: (fragmentShaderCalls env ++
        (checkCompilationOrLinking env.driver env.fragmentShader shaderType.SHADER).1),
        some (-1)⟩ := by
  unfold vertexStatus at hv
  unfold fragmentStatus at hf
  cases ha : env.apple <;>
    simp [main, hw, hl, hv, hf, ha, preCheckCalls, windowCalls, loaderCalls, geometryCalls,
      vertexShaderCalls, fragmentShaderCalls, vertexQuery, vertexStatus,
      checkCompilationOrLinking]

theorem main_link_fails (env : Env) (fuel : Nat) (hw : env.window ≠ 0)
    (hl : env.loader ≠ 0) (hv : vertexStatus env ≠ 0) (hf : fragmentStatus env ≠ 0)
    (hp : linkStatus env = 0) :
    main env fuel =
      ⟨preCheckCalls env ++ vertexQuery env :: (fragmentShaderCalls env ++
        fragmentQuery env :: (programCalls env ++
          (checkCompilationOrLinking env.driver env.shaderProgram shaderType.PROGRAM).1)),
        some (-1)⟩ := by
  unfold vertexStatus at hv
  unfold fragmentStatus at hf
  unfold linkStatus at hp
  cases ha : env.apple <;>
    simp [main, hw, hl, hv, hf, hp, ha, preCheckCalls, windowCalls, loaderCalls, geometryCalls,
      vertexShaderCalls, fragmentShaderCalls, programCalls, vertexQuery, vertexStatus,
      fragmentQuery, fragmentStatus, checkCompilationOrLinking]

theorem main_started (env : Env) (fuel : Nat) (hs : ¬ startupFails env) :
    main env fuel =
      if (renderLoop env env.window env.shaderProgram env.vao fuel 0 env.shouldClose0).2 then
        ⟨setupCalls env ++
          (renderLoop env env.window env.shaderProgram env.vao fuel 0 env.shouldClose0).1 ++
          teardownCalls env, some 0⟩
      else
        ⟨setupCalls env ++
          (renderLoop env env.window env.shaderProgram env.vao fuel 0 env.shouldClose0).1,
          none⟩ := by
  simp only [startupFails, not_or] at hs
  obtain ⟨hw, hl, hv, hf, hp⟩ := hs
  unfold vertexStatus at hv
  unfold fragmentStatus at hf
  unfold linkStatus at hp
  cases ha : env.apple <;>
  cases hloop : (renderLoop env env.window env.shaderProgram env.vao fuel 0 env.shouldClose0).2 <;>
    simp [main, hw, hl, hv, hf, hp, ha, hloop, setupCalls, preCheckCalls, windowCalls,
      loaderCalls, geometryCalls, vertexShaderCalls, fragmentShaderCalls, programCalls,
      vertexQuery, vertexStatus, fragmentQuery, fragmentStatus, linkQuery, linkStatus,
      teardownCalls, checkCompilationOrLinking]

/-! ## Splitting a trace at a call of a given kind -/

theorem split_after_left {α : Type} (p : α → Bool) {A B pre post : List α} {e : α}
    (h : A ++ B = pre ++ e :: post) (he : p e = true) (hA : ∀ x ∈ A, p x = false) :
    ∃ mid, pre = A ++ mid ∧ B = mid ++ e :: post := by
  induction A generalizing pre with
  | nil => exact ⟨pre, by simp, by simpa using h⟩
  | cons a A ih =>
    cases pre with
    | nil =>
      simp only [List.cons_append, List.nil_append, List.cons.injEq] at h
      have := hA a (by simp)
      rw [h.1, he] at this
      exact absurd this (by simp)
    | cons x pre =>
      simp only [List.cons_append, List.cons.injEq] at h
      obtain ⟨mid, h1, h2⟩ := ih h.2 (fun y hy => hA y (by simp [hy]))
      exact ⟨mid, by simp [h.1, h1], h2⟩

theorem split_before_right {α : Type} (p : α → Bool) {A B pre post : List α} {e : α}
    (h : A ++ B = pre ++ e :: post) (he : p e = true) (hB : ∀ x ∈ B, p x = false) :
    ∃ mid, post = mid ++ B ∧ A = pre ++ e :: mid := by
  induction pre generalizing A with
  | nil =>
    cases A with
    | nil =>
      simp only [List.nil_append] at h
      have := hB e (by simp [h])
      rw [he] at this
      exact absurd this (by simp)
    | cons a A =>
      simp only [List.cons_append, List.nil_append, List.cons.injEq] at h
      exact ⟨A, h.2.symm, by simp [h.1]⟩
  | cons x pre ih =>
    cases A with
    | nil =>
      simp only [List.nil_append, List.cons_append] at h
      have := hB e (by simp [h])
      rw [he] at this
      exact absurd this (by simp)
    | cons a A =>
      simp only [List.cons_append, List.cons.injEq] at h
      obtain ⟨mid, h1, h2⟩ := ih h.2
      exact ⟨mid, h1, by simp [h.1, h2]⟩

theorem mem_of_append_eq_concat {α : Type} {A B l : List α} {e : α}
    (h : A ++ B = l ++ [e]) (hB : B ≠ []) : e ∈ B := by
  obtain ⟨L, b, rfl⟩ := (List.eq_nil_or_concat B).resolve_left hB
  rw [List.concat_eq_append, ← List.append_assoc] at h
  have hb : [b] = [e] := List.append_inj_right' h rfl
  simp only [List.cons.injEq, and_true] at hb
  simp [hb]

theorem not_mem_of_all_false {α : Type} (p : α → Bool) {l pre post : List α} {e : α}
    (h : l = pre ++ e :: post) (he : p e = true) (hl : ∀ x ∈ l, p x = false) : False := by
  have := hl e (by simp [h])
  rw [he] at this
  exact absurd this (by simp)

/-! ## The render loop -/

theorem processInput_calls_flag (env : Env) (i w : Nat) (flag : Bool) :
    (processInput env i w flag).1 = (processInput env i w false).1 := by
  by_cases h : env.getKey i w GLFW_KEY_ESCAPE = GLFW_PRESS <;> simp [processInput, h]

theorem frame_calls (env : Env) (i w p v : Nat) (flag : Bool) :
    (frame env i w p v flag).1 = bodyCalls env i w p v := by
  have h : (1.0 : ℚ) = 1 := by norm_num
  simp only [frame, bodyCalls, drawCalls, h]
  rw [processInput_calls_flag]

theorem renderLoop_zero (env : Env) (w p v i : Nat) (flag : Bool) :
    renderLoop env w p v 0 i flag = ([], false) := rfl

theorem renderLoop_succ_true (env : Env) (w p v fuel i : Nat) :
    renderLoop env w p v (fuel + 1) i true = ([Event.glfwWindowShouldClose w true], true) := rfl

theorem renderLoop_succ_false (env : Env) (w p v fuel i : Nat) :
    renderLoop env w p v (fuel + 1) i false =
      (Event.glfwWindowShouldClose w false ::
        (bodyCalls env i w p v ++
          (renderLoop env w p v fuel (i + 1) (frame env i w p v false).2).1),
       (renderLoop env w p v fuel (i + 1) (frame env i w p v false).2).2) := by
  rw [renderLoop]
  simp [frame_calls]

theorem processInput_calls_loopOnly (env : Env) (i w : Nat) (flag : Bool) :
    ∀ e ∈ (processInput env i w flag).1, e.isLoopOnly = true ∧ e.isLoopCheck = false := by
  intro e he
  by_cases h : env.getKey i w GLFW_KEY_ESCAPE = GLFW_PRESS
  · simp [processInput, h] at he
    rcases he with h | h <;> subst h <;> exact ⟨rfl, rfl⟩
  · simp [processInput, h] at he
    subst he
    exact ⟨rfl, rfl⟩

theorem processInput_calls_notGL (env : Env) (i w : Nat) (flag : Bool) :
    ∀ e ∈ (processInput env i w flag).1, e.isGL = false ∧ e.isBufferData = false := by
  intro e he
  by_cases h : env.getKey i w GLFW_KEY_ESCAPE = GLFW_PRESS
  · simp [processInput, h] at he
    rcases he with h | h <;> subst h <;> exact ⟨rfl, rfl⟩
  · simp [processInput, h] at he
    subst he
    exact ⟨rfl, rfl⟩

theorem drawCalls_loopCall (w p v : Nat) :
    ∀ e ∈ drawCalls w p v, e.isLoopCall = true ∧ e.isLoopCheck = false := by
  intro e he
  simp [drawCalls] at he
  rcases he with h | h | h | h | h | h | h <;> subst h <;> exact ⟨rfl, rfl⟩

theorem pollCallbacks_viewport (env : Env) (i w : Nat) :
    ∀ e ∈ pollCallbacks env i w, ∃ width height, e = Event.glViewport 0 0 width height := by
  intro e he
  simp only [pollCallbacks, framebuffer_size_callback, List.mem_flatMap, List.mem_singleton]
    at he
  obtain ⟨size, -, rfl⟩ := he
  exact ⟨size.1, size.2, rfl⟩

theorem isLoopCall_of_isLoopOnly {e : Event} (h : e.isLoopOnly = true) : e.isLoopCall = true := by
  cases e <;> simp_all [Event.isLoopCall, Event.isLoopOnly]

theorem bodyCalls_kinds (env : Env) (i w p v : Nat) :
    ∀ e ∈ bodyCalls env i w p v, e.isLoopCall = true ∧ e.isLoopCheck = false := by
  intro e he
  simp only [bodyCalls, List.mem_append] at he
  rcases he with (h | h) | h
  · exact ⟨isLoopCall_of_isLoopOnly (processInput_calls_loopOnly env i w false e h).1,
      (processInput_calls_loopOnly env i w false e h).2⟩
  · exact drawCalls_loopCall w p v e h
  · obtain ⟨width, height, rfl⟩ := pollCallbacks_viewport env i w e h
    exact ⟨rfl, rfl⟩

theorem iteration_body_no_check (env : Env) (i w p v : Nat) :
    ∀ e ∈ bodyCalls env i w p v, e.isLoopCheck = false :=
  fun e he => (bodyCalls_kinds env i w p v e he).2

theorem renderLoop_calls_loopCall (env : Env) (w p v : Nat) (fuel i : Nat) (flag : Bool) :
    ∀ e ∈ (renderLoop env w p v fuel i flag).1, e.isLoopCall = true := by
  induction fuel generalizing i flag with
  | zero => simp [renderLoop_zero]
  | succ fuel ih =>
    cases flag with
    | true =>
      intro e he
      simp [renderLoop_succ_true] at he
      subst he
      rfl
    | false =>
      intro e he
      rw [renderLoop_succ_false] at he
      simp only [List.mem_cons, List.mem_append] at he
      rcases he with h | h | h
      · subst h; rfl
      · exact (bodyCalls_kinds env i w p v e h).1
      · exact ih _ _ e h

theorem renderLoop_head (env : Env) (w p v : Nat) (fuel i : Nat) (flag : Bool) :
    (renderLoop env w p v fuel i flag).1 = [] ∨
      ∃ b r, (renderLoop env w p v fuel i flag).1 = Event.glfwWindowShouldClose w b :: r := by
  cases fuel with
  | zero => left; rfl
  | succ fuel =>
    right
    cases flag with
    | true => exact ⟨true, [], by rw [renderLoop_succ_true]⟩
    | false => exact ⟨false, _, by rw [renderLoop_succ_false]⟩

theorem closeFlagAt_succ_of_false (env : Env) (i : Nat) (h : closeFlagAt env i = false) :
    (frame env i env.window env.shaderProgram env.vao false).2 = closeFlagAt env (i + 1) := by
  rw [closeFlagAt, h]

theorem renderLoop_exits (env : Env) (n : Nat) :
    ∀ i fuel, (∀ j, j < n → closeFlagAt env (i + j) = false) →
      closeFlagAt env (i + n) = true → n < fuel →
      renderLoop env env.window env.shaderProgram env.vao fuel i (closeFlagAt env i) =
        (iterationsFrom env i n ++ [Event.glfwWindowShouldClose env.window true], true) := by
  induction n with
  | zero =>
    intro i fuel _ ht hf
    obtain ⟨f, rfl⟩ : ∃ f, fuel = f + 1 := ⟨fuel - 1, by omega⟩
    rw [Nat.add_zero] at ht
    rw [ht, renderLoop_succ_true]
    rfl
  | succ n ih =>
    intro i fuel hfalse ht hf
    obtain ⟨f, rfl⟩ : ∃ f, fuel = f + 1 := ⟨fuel - 1, by omega⟩
    have h0 : closeFlagAt env i = false := by simpa using hfalse 0 (by omega)
    have hstep := ih (i + 1) f
      (fun j hj => by
        have := hfalse (j + 1) (by omega)
        rwa [show i + (j + 1) = i + 1 + j by omega] at this)
      (by rwa [show i + (n + 1) = i + 1 + n by omega] at ht) (by omega)
    rw [h0, renderLoop_succ_false, closeFlagAt_succ_of_false env i h0, hstep]
    simp [iterationsFrom, iterationCalls]

theorem renderLoop_running (env : Env) (fuel : Nat) :
    ∀ i, (∀ j, j < fuel → closeFlagAt env (i + j) = false) →
      renderLoop env env.window env.shaderProgram env.vao fuel i (closeFlagAt env i) =
        (iterationsFrom env i fuel, false) := by
  induction fuel with
  | zero => intro i _; rfl
  | succ f ih =>
    intro i hfalse
    have h0 : closeFlagAt env i = false := by simpa using hfalse 0 (by omega)
    have hstep := ih (i + 1)
      (fun j hj => by
        have := hfalse (j + 1) (by omega)
        rwa [show i + (j + 1) = i + 1 + j by omega] at this)
    rw [h0, renderLoop_succ_false, closeFlagAt_succ_of_false env i h0, hstep]
    simp [iterationsFrom, iterationCalls]

theorem renderLoop_left_iff (env : Env) (fuel : Nat) :
    (renderLoop env env.window env.shaderProgram env.vao fuel 0 env.shouldClose0).2 = true ↔
      ∃ k, k < fuel ∧ closeFlagAt env k = true := by
  have h0 : env.shouldClose0 = closeFlagAt env 0 := rfl
  rw [h0]
  constructor
  · intro h
    by_contra hne
    have hall : ∀ j, j < fuel → closeFlagAt env (0 + j) = false := by
      intro j hj
      rw [Nat.zero_add]
      cases hc : closeFlagAt env j with
      | false => rfl
      | true => exact absurd ⟨j, hj, hc⟩ hne
    rw [renderLoop_running env fuel 0 hall] at h
    exact absurd h (by simp)
  · intro hex
    have hex2 : ∃ k, closeFlagAt env k = true := by
      obtain ⟨k, _, hk⟩ := hex
      exact ⟨k, hk⟩
    have hmin : ∀ j, j < Nat.find hex2 → closeFlagAt env (0 + j) = false := by
      intro j hj
      rw [Nat.zero_add]
      have := Nat.find_min hex2 hj
      simpa using this
    have hlt : Nat.find hex2 < fuel := by
      obtain ⟨k, hk, hc⟩ := hex
      exact lt_of_le_of_lt (Nat.find_min' hex2 hc) hk
    rw [renderLoop_exits env (Nat.find hex2) 0 fuel hmin
      (by rw [Nat.zero_add]; exact Nat.find_spec hex2) hlt]

theorem renderLoop_iteration (env : Env) (w p v : Nat) (fuel : Nat) :
    ∀ i flag pre post,
      (renderLoop env w p v fuel i flag).1 = pre ++ Event.glfwWindowShouldClose w false :: post →
      ∃ rest, post = bodyCalls env (i + pre.countP Event.isLoopCheck) w p v ++ rest ∧
        (rest = [] ∨ ∃ b r, rest = Event.glfwWindowShouldClose w b :: r) := by
  induction fuel with
  | zero =>
    intro i flag pre post h
    rw [renderLoop_zero] at h
    simp at h
  | succ fuel ih =>
    intro i flag pre post h
    cases flag with
    | true =>
      rw [renderLoop_succ_true] at h
      cases pre with
      | nil => simp at h
      | cons x pre => simp at h
    | false =>
      rw [renderLoop_succ_false] at h
      cases pre with
      | nil =>
        simp only [List.nil_append, List.cons.injEq, true_and] at h
        refine ⟨_, by simpa using h.symm, renderLoop_head env w p v fuel _ _⟩
      | cons x pre =>
        simp only [List.cons_append, List.cons.injEq] at h
        obtain ⟨hx, h⟩ := h
        obtain ⟨mid, h1, h2⟩ := split_after_left Event.isLoopCheck h rfl
          (iteration_body_no_check env i w p v)
        obtain ⟨rest, h3, h4⟩ := ih _ _ mid post h2
        refine ⟨rest, ?_, h4⟩
        have hc : (x :: pre).countP Event.isLoopCheck = 1 + mid.countP Event.isLoopCheck := by
          rw [h1, ← hx, List.countP_cons_of_pos _ _ rfl, List.countP_append,
            List.countP_eq_zero.2 (fun e he => by
              simpa using iteration_body_no_check env i w p v e he)]
          omega
        rw [h3, hc, show i + (1 + mid.countP Event.isLoopCheck) =
          i + 1 + mid.countP Event.isLoopCheck by omega]

/-! ## Runs that fail during startup -/

theorem check_calls_kinds (drv : Driver) (shader : Nat) (type : shaderType) :
    ∀ x ∈ (checkCompilationOrLinking drv shader type).1,
      x.isLoopOnly = false ∧ x.isDeleteShader = false := by
  cases type
  · by_cases h : drv.shaderiv shader GL_COMPILE_STATUS = 0 <;>
      simp [checkCompilationOrLinking, h, Event.isLoopOnly, Event.isDeleteShader]
  · by_cases h : drv.programiv shader GL_LINK_STATUS = 0 <;>
      simp [checkCompilationOrLinking, h, Event.isLoopOnly, Event.isDeleteShader]

theorem preCheckCalls_kinds (env : Env) :
    ∀ x ∈ preCheckCalls env, x.isLoopOnly = false ∧ x.isDeleteShader = false := by
  cases ha : env.apple <;>
    simp [preCheckCalls, windowCalls, loaderCalls, geometryCalls, vertexShaderCalls, ha,
      Event.isLoopOnly, Event.isDeleteShader]

theorem stageCalls_kinds (env : Env) :
    ∀ x ∈ vertexQuery env :: (fragmentShaderCalls env ++ fragmentQuery env :: programCalls env),
      x.isLoopOnly = false ∧ x.isDeleteShader = false := by
  simp [fragmentShaderCalls, programCalls, vertexQuery, fragmentQuery, Event.isLoopOnly,
    Event.isDeleteShader]

theorem main_fails (env : Env) (fuel : Nat) (h : startupFails env) :
    (main env fuel).exitCode = some (-1) ∧
      ∀ x ∈ (main env fuel).trace, x.isLoopOnly = false ∧ x.isDeleteShader = false := by
  by_cases hw : env.window = 0
  · rw [main_window_null env fuel hw]
    cases ha : env.apple <;> simp [windowCalls, ha, Event.isLoopOnly, Event.isDeleteShader]
  by_cases hl : env.loader = 0
  · rw [main_loader_fails env fuel hw hl]
    cases ha : env.apple <;>
      simp [windowCalls, loaderCalls, ha, Event.isLoopOnly, Event.isDeleteShader]
  by_cases hv : vertexStatus env = 0
  · rw [main_vertex_fails env fuel hw hl hv]
    refine ⟨rfl, fun x hx => ?_⟩
    rcases List.mem_append.1 hx with hx | hx
    · exact preCheckCalls_kinds env x hx
    · exact check_calls_kinds _ _ _ x hx
  by_cases hf : fragmentStatus env = 0
  · rw [main_fragment_fails env fuel hw hl hv hf]
    refine ⟨rfl, fun x hx => ?_⟩
    simp only [List.mem_append, List.mem_cons] at hx
    rcases hx with hx | hx | hx | hx
    · exact preCheckCalls_kinds env x hx
    · exact stageCalls_kinds env x (by simp [hx])
    · exact stageCalls_kinds env x (by simp [hx])
    · exact check_calls_kinds _ _ _ x hx
  by_cases hp : linkStatus env = 0
  · rw [main_link_fails env fuel hw hl hv hf hp]
    refine ⟨rfl, fun x hx => ?_⟩
    simp only [List.mem_append, List.mem_cons] at hx
    rcases hx with hx | hx | hx | hx | hx | hx
    · exact preCheckCalls_kinds env x hx
    · exact stageCalls_kinds env x (by simp [hx])
    · exact stageCalls_kinds env x (by simp [hx])
    · exact stageCalls_kinds env x (by simp [hx])
    · exact stageCalls_kinds env x (by simp [hx])
    · exact check_calls_kinds _ _ _ x hx
  · exact absurd h (by simp [startupFails, hw, hl, hv, hf, hp])

theorem main_started_exitCode (env : Env) (fuel : Nat) (hs : ¬ startupFails env) :
    (main env fuel).exitCode =
      if (renderLoop env env.window env.shaderProgram env.vao fuel 0 env.shouldClose0).2 then
        some 0
      else none := by
  rw [main_started env fuel hs]
  split <;> rfl

theorem setupCalls_not_loopOnly (env : Env) : ∀ x ∈ setupCalls env, x.isLoopOnly = false := by
  cases ha : env.apple <;>
    simp [setupCalls, preCheckCalls, windowCalls, loaderCalls, geometryCalls, vertexShaderCalls,
      ha, fragmentShaderCalls, programCalls, vertexQuery, fragmentQuery, linkQuery,
      Event.isLoopOnly]

theorem isLoopCheck_isLoopOnly {e : Event} (h : e.isLoopOnly = false) :
    e.isLoopCheck = false := by
  cases e <;> simp_all [Event.isLoopCheck, Event.isLoopOnly]

theorem main_started_trace (env : Env) (fuel : Nat) (hs : ¬ startupFails env) :
    (main env fuel).trace = setupCalls env ++
      ((renderLoop env env.window env.shaderProgram env.vao fuel 0 env.shouldClose0).1 ++
        if (renderLoop env env.window env.shaderProgram env.vao fuel 0 env.shouldClose0).2
        then teardownCalls env else []) := by
  rw [main_started env fuel hs]
  split <;> simp

theorem teardownCalls_not_loopOnly (env : Env) :
    ∀ x ∈ teardownCalls env, x.isLoopOnly = false := by
  simp [teardownCalls, Event.isLoopOnly]

theorem renderLoop_left_last (env : Env) (w p v : Nat) (fuel : Nat) :
    ∀ i flag, (renderLoop env w p v fuel i flag).2 = true →
      ∃ l, (renderLoop env w p v fuel i flag).1 = l ++ [Event.glfwWindowShouldClose w true] ∧
        ∀ x ∈ l, x ≠ Event.glfwWindowShouldClose w true := by
  induction fuel with
  | zero =>
    intro i flag h
    rw [renderLoop_zero] at h
    simp at h
  | succ fuel ih =>
    intro i flag h
    cases flag with
    | true => exact ⟨[], by rw [renderLoop_succ_true]; rfl, by simp⟩
    | false =>
      rw [renderLoop_succ_false] at h ⊢
      obtain ⟨l, hl, hne⟩ := ih _ _ h
      refine ⟨Event.glfwWindowShouldClose w false :: (bodyCalls env i w p v ++ l),
        by simp [hl], ?_⟩
      intro x hx
      simp only [List.mem_cons, List.mem_append] at hx
      rcases hx with hx | hx | hx
      · subst hx; simp
      · intro hc
        have := iteration_body_no_check env i w p v x hx
        rw [hc] at this
        simp [Event.isLoopCheck] at this
      · exact hne x hx

theorem renderLoop_left_of_mem (env : Env) (w p v : Nat) (fuel : Nat) :
    ∀ i flag, Event.glfwWindowShouldClose w true ∈ (renderLoop env w p v fuel i flag).1 →
      (renderLoop env w p v fuel i flag).2 = true := by
  induction fuel with
  | zero =>
    intro i flag h
    rw [renderLoop_zero] at h
    simp at h
  | succ fuel ih =>
    intro i flag h
    cases flag with
    | true => rw [renderLoop_succ_true]
    | false =>
      rw [renderLoop_succ_false] at h ⊢
      simp only [List.mem_cons, List.mem_append] at h
      rcases h with h | h | h
      · simp at h
      · have := iteration_body_no_check env i w p v _ h
        simp [Event.isLoopCheck] at this
      · exact ih _ _ h

theorem iterationsFrom_succ (env : Env) (n : Nat) :
    ∀ i, iterationsFrom env i (n + 1) = iterationsFrom env i n ++ iterationCalls env (i + n) := by
  induction n with
  | zero => intro i; simp [iterationsFrom]
  | succ n ih =>
    intro i
    rw [iterationsFrom, ih (i + 1), iterationsFrom]
    simp [show i + 1 + n = i + (n + 1) by omega]

theorem renderLoop_countP_zero (env : Env) (w p v fuel i : Nat) (flag : Bool)
    (q : Event → Bool) (hq : ∀ e : Event, e.isLoopCall = true → q e = false) :
    (renderLoop env w p v fuel i flag).1.countP q = 0 := by
  rw [List.countP_eq_zero]
  intro x hx
  simpa using hq x (renderLoop_calls_loopCall env w p v fuel i flag x hx)

theorem isLoopCall_not_setup {e : Event} (h : e.isLoopCall = true) :
    e.isDeleteVertexArrays = false ∧ e.isDeleteBuffers = false ∧ e.isDeleteProgram = false ∧
      e.isDeleteShader = false ∧ e.isBufferData = false ∧ e.isVertexAttribPointer = false ∧
      e.isTerminate = false := by
  cases e <;> first | exact ⟨rfl, rfl, rfl, rfl, rfl, rfl, rfl⟩ | exact absurd h (by simp [Event.isLoopCall, Event.isLoopOnly])

theorem escapeEnv_started : ¬ startupFails escapeEnv := by
  simp [startupFails, escapeEnv, vertexStatus, fragmentStatus, linkStatus, workingDriver]

theorem escapeEnv_flags : ∀ j, j ≤ 1 → closeFlagAt escapeEnv j = false := by
  intro j hj
  interval_cases j
  · rfl
  · simp [closeFlagAt, frame, processInput, escapeEnv, GLFW_PRESS]

theorem resizeEnv_started : ¬ startupFails resizeEnv := by
  simp [startupFails, resizeEnv, escapeEnv, vertexStatus, fragmentStatus, linkStatus,
    workingDriver]

theorem resizeEnv_flags : ∀ j, j ≤ 1 → closeFlagAt resizeEnv j = false := by
  intro j hj
  interval_cases j
  · rfl
  · simp [closeFlagAt, frame, processInput, resizeEnv, escapeEnv, GLFW_PRESS]

theorem resizeEnv_main :
    main resizeEnv 3 =
      ⟨setupCalls resizeEnv ++ iterationsFrom resizeEnv 0 2 ++
        [Event.glfwWindowShouldClose 7 true] ++ teardownCalls resizeEnv, some 0⟩ := by
  have hloop := renderLoop_exits resizeEnv 2 0 3
    (fun j hj => by rw [Nat.zero_add]; exact resizeEnv_flags j (by omega))
    (by simp [closeFlagAt, frame, processInput, resizeEnv, escapeEnv, GLFW_PRESS]) (by omega)
  have h0 : closeFlagAt resizeEnv 0 = resizeEnv.shouldClose0 := rfl
  rw [h0] at hloop
  rw [main_started resizeEnv 3 resizeEnv_started, hloop]
  rfl

theorem escapeEnv_main :
    main escapeEnv 3 =
      ⟨setupCalls escapeEnv ++ iterationsFrom escapeEnv 0 2 ++
        [Event.glfwWindowShouldClose 7 true] ++ teardownCalls escapeEnv, some 0⟩ := by
  have hloop := renderLoop_exits escapeEnv 2 0 3
    (fun j hj => by rw [Nat.zero_add]; exact escapeEnv_flags j (by omega))
    (by simp [closeFlagAt, frame, processInput, escapeEnv, GLFW_PRESS]) (by omega)
  have h0 : closeFlagAt escapeEnv 0 = escapeEnv.shouldClose0 := rfl
  rw [h0] at hloop
  rw [main_started escapeEnv 3 escapeEnv_started, hloop]
  rfl

theorem renderLoop_draw (env : Env) (w p v fuel : Nat) :
    ∀ i flag mode first count,
      Event.glDrawArrays mode first count ∈ (renderLoop env w p v fuel i flag).1 →
      mode = GL_TRIANGLES ∧ first = 0 ∧ count = 3 := by
  induction fuel with
  | zero =>
    intro i flag mode first count h
    rw [renderLoop_zero] at h
    simp at h
  | succ fuel ih =>
    intro i flag mode first count h
    cases flag with
    | true =>
      rw [renderLoop_succ_true] at h
      simp at h
    | false =>
      rw [renderLoop_succ_false] at h
      simp only [List.mem_cons, List.mem_append] at h
      rcases h with h | h | h
      · simp at h
      · simp only [bodyCalls, List.mem_append] at h
        rcases h with (h | h) | h
        · by_cases hk : env.getKey i w GLFW_KEY_ESCAPE = GLFW_PRESS <;>
            simp [processInput, hk] at h
        · simpa [drawCalls] using h
        · obtain ⟨width, height, hv⟩ := pollCallbacks_viewport env i w _ h
          simp at hv
      · exact ih _ _ _ _ _ h

theorem main_after_geometry (env : Env) (fuel : Nat) (hw : env.window ≠ 0)
    (hl : env.loader ≠ 0) :
    ∃ post, (main env fuel).trace =
        windowCalls env ++ loaderCalls env ++ geometryCalls env ++ post ∧
      post.countP Event.isBufferData = 0 ∧ post.countP Event.isVertexAttribPointer = 0 := by
  by_cases hv : vertexStatus env = 0
  · refine ⟨vertexShaderCalls env ++
      (checkCompilationOrLinking env.driver env.vertexShader shaderType.SHADER).1, ?_, ?_, ?_⟩
    · rw [main_vertex_fails env fuel hw hl hv]
      simp [preCheckCalls]
    all_goals
      unfold vertexStatus at hv
      simp [vertexShaderCalls, checkCompilationOrLinking, hv, Event.isBufferData,
        Event.isVertexAttribPointer, List.countP_cons]
  by_cases hf : fragmentStatus env = 0
  · refine ⟨vertexShaderCalls env ++ vertexQuery env :: (fragmentShaderCalls env ++
      (checkCompilationOrLinking env.driver env.fragmentShader shaderType.SHADER).1), ?_, ?_, ?_⟩
    · rw [main_fragment_fails env fuel hw hl hv hf]
      simp [preCheckCalls]
    all_goals
      unfold fragmentStatus at hf
      simp [vertexShaderCalls, fragmentShaderCalls, vertexQuery, checkCompilationOrLinking, hf,
        Event.isBufferData, Event.isVertexAttribPointer, List.countP_cons]
  by_cases hp : linkStatus env = 0
  · refine ⟨vertexShaderCalls env ++ vertexQuery env :: (fragmentShaderCalls env ++
      fragmentQuery env :: (programCalls env ++
        (checkCompilationOrLinking env.driver env.shaderProgram shaderType.PROGRAM).1)),
      ?_, ?_, ?_⟩
    · rw [main_link_fails env fuel hw hl hv hf hp]
      simp [preCheckCalls]
    all_goals
      unfold linkStatus at hp
      simp [vertexShaderCalls, fragmentShaderCalls, programCalls, vertexQuery, fragmentQuery,
        checkCompilationOrLinking, hp, Event.isBufferData, Event.isVertexAttribPointer,
        List.countP_cons]
  have hs : ¬ startupFails env := by simp [startupFails, hw, hl, hv, hf, hp]
  refine ⟨vertexShaderCalls env ++ vertexQuery env :: (fragmentShaderCalls env ++
      fragmentQuery env :: (programCalls env ++
        [linkQuery env, Event.glDeleteShader env.vertexShader,
         Event.glDeleteShader env.fragmentShader])) ++
      ((renderLoop env env.window env.shaderProgram env.vao fuel 0 env.shouldClose0).1 ++
        if (renderLoop env env.window env.shaderProgram env.vao fuel 0 env.shouldClose0).2
        then teardownCalls env else []), ?_, ?_, ?_⟩
  · rw [main_started_trace env fuel hs]
    simp [setupCalls, preCheckCalls]
  · rw [List.countP_append, List.countP_append, List.countP_append,
      renderLoop_countP_zero env _ _ _ fuel 0 _ Event.isBufferData
        (fun e he => (isLoopCall_not_setup he).2.2.2.2.1)]
    split <;>
      simp [vertexShaderCalls, fragmentShaderCalls, programCalls, vertexQuery, fragmentQuery,
        linkQuery, teardownCalls, Event.isBufferData, List.countP_cons]
  · rw [List.countP_append, List.countP_append, List.countP_append,
      renderLoop_countP_zero env _ _ _ fuel 0 _ Event.isVertexAttribPointer
        (fun e he => (isLoopCall_not_setup he).2.2.2.2.2.1)]
    split <;>
      simp [vertexShaderCalls, fragmentShaderCalls, programCalls, vertexQuery, fragmentQuery,
        linkQuery, teardownCalls, Event.isVertexAttribPointer, List.countP_cons]

theorem setupCalls_no_deleteProgram (env : Env) :
    ∀ x ∈ setupCalls env, x.isDeleteProgram = false ∧ x.isTerminate = false := by
  cases ha : env.apple <;>
    simp [setupCalls, preCheckCalls, windowCalls, loaderCalls, geometryCalls, vertexShaderCalls,
      ha, fragmentShaderCalls, programCalls, vertexQuery, fragmentQuery, linkQuery,
      Event.isDeleteProgram, Event.isTerminate]

theorem main_shader_failure_no_terminate (env : Env) (fuel : Nat) (hw : env.window ≠ 0)
    (hl : env.loader ≠ 0)
    (h : vertexStatus env = 0 ∨ fragmentStatus env = 0 ∨ linkStatus env = 0) :
    ∀ x ∈ (main env fuel).trace, x.isTerminate = false := by
  by_cases hv : vertexStatus env = 0
  · rw [main_vertex_fails env fuel hw hl hv]
    unfold vertexStatus at hv
    cases ha : env.apple <;>
      simp [preCheckCalls, windowCalls, loaderCalls, geometryCalls, vertexShaderCalls, ha, hv,
        checkCompilationOrLinking, Event.isTerminate]
  by_cases hf : fragmentStatus env = 0
  · rw [main_fragment_fails env fuel hw hl hv hf]
    unfold fragmentStatus at hf
    cases ha : env.apple <;>
      simp [preCheckCalls, windowCalls, loaderCalls, geometryCalls, vertexShaderCalls,
        fragmentShaderCalls, vertexQuery, ha, hf, checkCompilationOrLinking, Event.isTerminate]
  by_cases hp : linkStatus env = 0
  · rw [main_link_fails env fuel hw hl hv hf hp]
    unfold linkStatus at hp
    cases ha : env.apple <;>
      simp [preCheckCalls, windowCalls, loaderCalls, geometryCalls, vertexShaderCalls,
        fragmentShaderCalls, programCalls, vertexQuery, fragmentQuery, ha, hp,
        checkCompilationOrLinking, Event.isTerminate]
  · exact absurd h (by simp [hv, hf, hp])

theorem setupCalls_deleteShader_split (env : Env) :
    ∃ pre, setupCalls env = pre ++
        [linkQuery env, Event.glDeleteShader env.vertexShader,
         Event.glDeleteShader env.fragmentShader] ∧
      ∀ x ∈ pre, x.isDeleteShader = false ∧ x.isLoopOnly = false := by
  refine ⟨preCheckCalls env ++ vertexQuery env :: (fragmentShaderCalls env ++
    fragmentQuery env :: programCalls env), by simp [setupCalls], ?_⟩
  cases ha : env.apple <;>
    simp [preCheckCalls, windowCalls, loaderCalls, geometryCalls, vertexShaderCalls,
      ha, fragmentShaderCalls, programCalls, vertexQuery, fragmentQuery,
      Event.isDeleteShader, Event.isLoopOnly]

theorem escapeEnv_trace_mem :
    Event.glBufferData GL_ARRAY_BUFFER 36 vertices GL_STATIC_DRAW ∈ (main escapeEnv 3).trace ∧
    Event.glVertexAttribPointer 0 3 GL_FLOAT GL_FALSE 12 0 ∈ (main escapeEnv 3).trace ∧
    Event.glDrawArrays GL_TRIANGLES 0 3 ∈ (main escapeEnv 3).trace := by
  rw [escapeEnv_main]
  simp [setupCalls, preCheckCalls, geometryCalls, iterationsFrom, iterationCalls, bodyCalls,
    drawCalls, escapeEnv, vertices]

/-! ## The claims -/

/-- C1: `main` returns -1 exactly when the window is null, the loader fails, or one
of the three status checks fails; when none of them fails it returns 0 exactly when
some loop check within the observed run sees the close flag set; and it never
returns any other value. -/
theorem main_exit_codes (env : Env) :
    (∀ fuel, (main env fuel).exitCode = some (-1) ↔
      (env.window = 0 ∨ env.loader = 0 ∨ vertexStatus env = 0 ∨ fragmentStatus env = 0 ∨
        linkStatus env = 0)) ∧
    (∀ fuel, ¬ startupFails env →
      ((main env fuel).exitCode = some 0 ↔ ∃ k, k < fuel ∧ closeFlagAt env k = true)) ∧
    (∀ fuel code, (main env fuel).exitCode = some code → code = -1 ∨ code = 0) := by
  refine ⟨fun fuel => ⟨fun h => ?_, fun h => (main_fails env fuel h).1⟩, fun fuel hs => ?_,
    fun fuel code h => ?_⟩
  · by_contra hs
    rw [main_started_exitCode env fuel hs] at h
    split at h <;> simp at h
  · rw [main_started_exitCode env fuel hs, ← renderLoop_left_iff]
    split <;> simp_all
  · by_cases hs : startupFails env
    · rw [(main_fails env fuel hs).1] at h
      left
      exact (Option.some.inj h).symm
    · rw [main_started_exitCode env fuel hs] at h
      split at h
      · right
        exact (Option.some.inj h).symm
      · simp at h

/-- C2: a call that only the render loop issues, `glDrawArrays` among them, is
preceded in the trace by the compile-status query of the vertex shader, that of the
fragment shader and the link-status query of the program, in this order, each
answered with a non-zero status.  And when one of the three statuses is zero, `main`
returns -1 and its trace holds no such call. -/
theorem loop_calls_follow_successful_checks (env : Env) (fuel : Nat) :
    (∀ pre e post, (main env fuel).trace = pre ++ e :: post → e.isLoopOnly = true →
      vertexStatus env ≠ 0 ∧ fragmentStatus env ≠ 0 ∧ linkStatus env ≠ 0 ∧
      ∃ a b c d, pre =
        a ++ Event.glGetShaderiv env.vertexShader GL_COMPILE_STATUS (vertexStatus env) ::
          (b ++ Event.glGetShaderiv env.fragmentShader GL_COMPILE_STATUS (fragmentStatus env) ::
            (c ++ Event.glGetProgramiv env.shaderProgram GL_LINK_STATUS (linkStatus env) ::
              d))) ∧
    ((vertexStatus env = 0 ∨ fragmentStatus env = 0 ∨ linkStatus env = 0) →
      (main env fuel).exitCode = some (-1) ∧
        ∀ x ∈ (main env fuel).trace, x.isLoopOnly = false ∧ x.isDraw = false) := by
  constructor
  · intro pre e post h he
    by_cases hs : startupFails env
    · exact (not_mem_of_all_false Event.isLoopOnly h he
        (fun x hx => ((main_fails env fuel hs).2 x hx).1)).elim
    · have hs2 := hs
      simp only [startupFails, not_or] at hs2
      refine ⟨hs2.2.2.1, hs2.2.2.2.1, hs2.2.2.2.2, ?_⟩
      rw [main_started_trace env fuel hs] at h
      obtain ⟨mid, hpre, -⟩ := split_after_left Event.isLoopOnly h he
        (setupCalls_not_loopOnly env)
      refine ⟨preCheckCalls env, fragmentShaderCalls env, programCalls env,
        Event.glDeleteShader env.vertexShader :: Event.glDeleteShader env.fragmentShader :: mid,
        ?_⟩
      rw [hpre]
      simp [setupCalls, vertexQuery, fragmentQuery, linkQuery]
  · intro h
    have hs : startupFails env := by
      unfold startupFails
      tauto
    refine ⟨(main_fails env fuel hs).1, fun x hx => ?_⟩
    have := ((main_fails env fuel hs).2 x hx).1
    refine ⟨this, ?_⟩
    cases x <;> simp_all [Event.isLoopOnly, Event.isDraw]

/-- C2 at `escapeEnv`: the first loop check of the run follows the three queries. -/
theorem loop_calls_follow_successful_checks_witness :
    (main escapeEnv 3).trace = setupCalls escapeEnv ++
        Event.glfwWindowShouldClose 7 false ::
          (List.drop 1 (iterationsFrom escapeEnv 0 2) ++
            [Event.glfwWindowShouldClose 7 true] ++ teardownCalls escapeEnv) ∧
    vertexStatus escapeEnv ≠ 0 ∧ fragmentStatus escapeEnv ≠ 0 ∧ linkStatus escapeEnv ≠ 0 :=
  have h : (main escapeEnv 3).trace = setupCalls escapeEnv ++
        Event.glfwWindowShouldClose 7 false ::
          (List.drop 1 (iterationsFrom escapeEnv 0 2) ++
            [Event.glfwWindowShouldClose 7 true] ++ teardownCalls escapeEnv) := by
    rw [escapeEnv_main]
    simp [iterationsFrom, iterationCalls, escapeEnv]
  have hc := (loop_calls_follow_successful_checks escapeEnv 3).1 _ _ _ h rfl
  ⟨h, hc.1, hc.2.1, hc.2.2.1⟩

/-- C3, as amended: whenever a loop check of `main` sees the close flag unset, the
calls that follow are those of `processInput` and then `glClearColor(1,1,1,1)`,
`glClear` of the colour buffer, `glUseProgram(shaderProgram)`,
`glBindVertexArray(vao)`, `glDrawArrays(GL_TRIANGLES, 0, 3)`,
`glfwSwapBuffers(window)`, `glfwPollEvents()`, then one `glViewport(0, 0, width,
height)` of the resize callback for every framebuffer-size event delivered in that
iteration, and after them comes the next loop check (or the end of the observed run).
The OpenGL calls of an iteration are the same five followed by those `glViewport`
calls, none of the calls uploads vertex data, and `processInput` issues no OpenGL
call. -/
theorem render_iteration_calls (env : Env) (fuel : Nat) (pre post : List Event)
    (h : (main env fuel).trace = pre ++ Event.glfwWindowShouldClose env.window false :: post) :
    ∃ rest,
      post = (processInput env (pre.countP Event.isLoopCheck) env.window false).1 ++
        [Event.glClearColor 1 1 1 1,
         Event.glClear GL_COLOR_BUFFER_BIT,
         Event.glUseProgram env.shaderProgram,
         Event.glBindVertexArray env.vao,
         Event.glDrawArrays GL_TRIANGLES 0 3,
         Event.glfwSwapBuffers env.window,
         Event.glfwPollEvents] ++
        (env.resizeEvents (pre.countP Event.isLoopCheck)).flatMap
          (fun size => [Event.glViewport 0 0 size.1 size.2]) ++ rest ∧
      (rest = [] ∨ ∃ b r, rest = Event.glfwWindowShouldClose env.window b :: r) ∧
      (∀ i, ((processInput env i env.window false).1 ++
        [Event.glClearColor 1 1 1 1,
         Event.glClear GL_COLOR_BUFFER_BIT,
         Event.glUseProgram env.shaderProgram,
         Event.glBindVertexArray env.vao,
         Event.glDrawArrays GL_TRIANGLES 0 3,
         Event.glfwSwapBuffers env.window,
         Event.glfwPollEvents] ++
        (env.resizeEvents i).flatMap
          (fun size => [Event.glViewport 0 0 size.1 size.2])).filter Event.isGL =
        [Event.glClearColor 1 1 1 1,
         Event.glClear GL_COLOR_BUFFER_BIT,
         Event.glUseProgram env.shaderProgram,
         Event.glBindVertexArray env.vao,
         Event.glDrawArrays GL_TRIANGLES 0 3] ++
        (env.resizeEvents i).flatMap (fun size => [Event.glViewport 0 0 size.1 size.2])) ∧
      (∀ i, ∀ x ∈ (processInput env i env.window false).1 ++
        [Event.glClearColor 1 1 1 1,
         Event.glClear GL_COLOR_BUFFER_BIT,
         Event.glUseProgram env.shaderProgram,
         Event.glBindVertexArray env.vao,
         Event.glDrawArrays GL_TRIANGLES 0 3,
         Event.glfwSwapBuffers env.window,
         Event.glfwPollEvents] ++
        (env.resizeEvents i).flatMap (fun size => [Event.glViewport 0 0 size.1 size.2]),
        x.isBufferData = false) ∧
      (∀ i, ∀ x ∈ (processInput env i env.window false).1, x.isGL = false) := by
  have he : (Event.glfwWindowShouldClose env.window false).isLoopCheck = true := rfl
  have hs : ¬ startupFails env := by
    intro hs
    exact not_mem_of_all_false Event.isLoopOnly h rfl
      (fun x hx => ((main_fails env fuel hs).2 x hx).1)
  rw [main_started_trace env fuel hs] at h
  obtain ⟨mid, hpre, h2⟩ := split_after_left Event.isLoopCheck h he
    (fun x hx => isLoopCheck_isLoopOnly (setupCalls_not_loopOnly env x hx))
  have hT : ∀ x ∈ (if (renderLoop env env.window env.shaderProgram env.vao fuel 0
      env.shouldClose0).2 then teardownCalls env else []), x.isLoopCheck = false := by
    intro x hx
    split at hx
    · exact isLoopCheck_isLoopOnly (teardownCalls_not_loopOnly env x hx)
    · simp at hx
  obtain ⟨mid2, hpost, hloop⟩ := split_before_right Event.isLoopCheck h2 he hT
  obtain ⟨rest, hrest, hnext⟩ := renderLoop_iteration env _ _ _ fuel 0 _ mid mid2 hloop
  have hcount : pre.countP Event.isLoopCheck = 0 + mid.countP Event.isLoopCheck := by
    rw [hpre, List.countP_append, List.countP_eq_zero.2 (fun x hx => by
      simpa using isLoopCheck_isLoopOnly (setupCalls_not_loopOnly env x hx))]
  have hgl : ∀ i, ∀ x ∈ (processInput env i env.window false).1, x.isGL = false :=
    fun i x hx => (processInput_calls_notGL env i env.window false x hx).1
  have hbody : ∀ i, (processInput env i env.window false).1 ++
      [Event.glClearColor 1 1 1 1,
         Event.glClear GL_COLOR_BUFFER_BIT,
         Event.glUseProgram env.shaderProgram,
         Event.glBindVertexArray env.vao,
         Event.glDrawArrays GL_TRIANGLES 0 3,
         Event.glfwSwapBuffers env.window,
         Event.glfwPollEvents] ++
      (env.resizeEvents i).flatMap (fun size => [Event.glViewport 0 0 size.1 size.2]) =
      bodyCalls env i env.window env.shaderProgram env.vao := by
    intro i
    simp [bodyCalls, drawCalls, pollCallbacks, framebuffer_size_callback]
  have hview : ∀ i, ∀ x ∈ (env.resizeEvents i).flatMap
      (fun size => [Event.glViewport 0 0 size.1 size.2]),
      x.isGL = true ∧ x.isBufferData = false := by
    intro i x hx
    simp only [List.mem_flatMap, List.mem_singleton] at hx
    obtain ⟨size, -, rfl⟩ := hx
    exact ⟨rfl, rfl⟩
  refine ⟨rest ++ (if (renderLoop env env.window env.shaderProgram env.vao fuel 0
      env.shouldClose0).2 then teardownCalls env else []), ?_, ?_, ?_, ?_, hgl⟩
  · rw [hbody, hpost, hrest, hcount]
    simp
  · rcases hnext with hnil | ⟨b, r, hr⟩
    · left
      cases hl : (renderLoop env env.window env.shaderProgram env.vao fuel 0 env.shouldClose0).2
      · simp [hnil]
      · exfalso
        obtain ⟨l, hlast, -⟩ := renderLoop_left_last env _ _ _ fuel 0 _ hl
        rw [hlast, hrest, hnil, List.append_nil] at hloop
        have hne : bodyCalls env (0 + mid.countP Event.isLoopCheck) env.window
            env.shaderProgram env.vao ≠ [] := by
          simp [bodyCalls, drawCalls]
        have hmem := mem_of_append_eq_concat
          (A := mid ++ [Event.glfwWindowShouldClose env.window false])
          (by simpa using hloop.symm) hne
        have := iteration_body_no_check env _ _ _ _ _ hmem
        simp [Event.isLoopCheck] at this
    · right
      exact ⟨b, _, by rw [hr]; rfl⟩
  · intro i
    rw [List.filter_append, List.filter_append,
      List.filter_eq_nil_iff.2 (fun x hx => by simp [hgl i x hx]),
      List.filter_eq_self.2 (fun x hx => (hview i x hx).1)]
    simp [Event.isGL, List.filter_cons]
  · intro i x hx
    simp only [List.mem_append] at hx
    rcases hx with (hx | hx) | hx
    · exact (processInput_calls_notGL env i env.window false x hx).2
    · simp only [List.mem_cons, List.mem_singleton, List.not_mem_nil, or_false] at hx
      rcases hx with hx | hx | hx | hx | hx | hx | hx <;> subst hx <;> rfl
    · exact (hview i x hx).2

/-- C3, as amended, at `resizeEnv`: the calls after the first loop check of the run
end with the `glViewport` call of the resize callback. -/
theorem render_iteration_calls_witness :
    (main resizeEnv 3).trace = setupCalls resizeEnv ++
        Event.glfwWindowShouldClose resizeEnv.window false ::
          (List.drop 1 (iterationsFrom resizeEnv 0 2) ++
            [Event.glfwWindowShouldClose 7 true] ++ teardownCalls resizeEnv) ∧
    ∃ rest,
      List.drop 1 (iterationsFrom resizeEnv 0 2) ++
          [Event.glfwWindowShouldClose 7 true] ++ teardownCalls resizeEnv =
        (processInput resizeEnv ((setupCalls resizeEnv).countP Event.isLoopCheck)
          resizeEnv.window false).1 ++
        [Event.glClearColor 1 1 1 1,
         Event.glClear GL_COLOR_BUFFER_BIT,
         Event.glUseProgram resizeEnv.shaderProgram,
         Event.glBindVertexArray resizeEnv.vao,
         Event.glDrawArrays GL_TRIANGLES 0 3,
         Event.glfwSwapBuffers resizeEnv.window,
         Event.glfwPollEvents] ++
        (resizeEnv.resizeEvents ((setupCalls resizeEnv).countP Event.isLoopCheck)).flatMap
          (fun size => [Event.glViewport 0 0 size.1 size.2]) ++ rest :=
  have h : (main resizeEnv 3).trace = setupCalls resizeEnv ++
        Event.glfwWindowShouldClose resizeEnv.window false ::
          (List.drop 1 (iterationsFrom resizeEnv 0 2) ++
            [Event.glfwWindowShouldClose 7 true] ++ teardownCalls resizeEnv) := by
    rw [resizeEnv_main]
    simp [iterationsFrom, iterationCalls, resizeEnv, escapeEnv]
  have hc := render_iteration_calls resizeEnv 3 _ _ h
  ⟨h, hc.choose, hc.choose_spec.1⟩

/-- C3 as stated fails at `resizeEnv`, where the window is resized during the first
iteration: the run is the one written out, its first iteration is followed by
`glViewport(0, 0, 1024, 768)` and not by the next loop check, and the OpenGL calls of
the first and of the second iteration differ. -/
theorem render_iteration_calls_counterexample :
    (main resizeEnv 3).trace = setupCalls resizeEnv ++
      Event.glfwWindowShouldClose 7 false ::
        [Event.glfwGetKey 7 GLFW_KEY_ESCAPE 0,
         Event.glClearColor 1 1 1 1,
         Event.glClear GL_COLOR_BUFFER_BIT,
         Event.glUseProgram 3,
         Event.glBindVertexArray 1,
         Event.glDrawArrays GL_TRIANGLES 0 3,
         Event.glfwSwapBuffers 7,
         Event.glfwPollEvents,
         Event.glViewport 0 0 1024 768,
         Event.glfwWindowShouldClose 7 false,
         Event.glfwGetKey 7 GLFW_KEY_ESCAPE 1,
         Event.glfwSetWindowShouldClose 7 true,
         Event.glClearColor 1 1 1 1,
         Event.glClear GL_COLOR_BUFFER_BIT,
         Event.glUseProgram 3,
         Event.glBindVertexArray 1,
         Event.glDrawArrays GL_TRIANGLES 0 3,
         Event.glfwSwapBuffers 7,
         Event.glfwPollEvents,
         Event.glfwWindowShouldClose 7 true,
         Event.glDeleteVertexArrays 1 1,
         Event.glDeleteBuffers 1 1,
         Event.glDeleteProgram 3,
         Event.glfwTerminate] ∧
    (¬ ∃ rest,
      [Event.glfwGetKey 7 GLFW_KEY_ESCAPE 0,
       Event.glClearColor 1 1 1 1,
       Event.glClear GL_COLOR_BUFFER_BIT,
       Event.glUseProgram 3,
       Event.glBindVertexArray 1,
       Event.glDrawArrays GL_TRIANGLES 0 3,
       Event.glfwSwapBuffers 7,
       Event.glfwPollEvents,
       Event.glViewport 0 0 1024 768,
       Event.glfwWindowShouldClose 7 false,
       Event.glfwGetKey 7 GLFW_KEY_ESCAPE 1,
       Event.glfwSetWindowShouldClose 7 true,
       Event.glClearColor 1 1 1 1,
       Event.glClear GL_COLOR_BUFFER_BIT,
       Event.glUseProgram 3,
       Event.glBindVertexArray 1,
       Event.glDrawArrays GL_TRIANGLES 0 3,
       Event.glfwSwapBuffers 7,
       Event.glfwPollEvents,
       Event.glfwWindowShouldClose 7 true,
       Event.glDeleteVertexArrays 1 1,
       Event.glDeleteBuffers 1 1,
       Event.glDeleteProgram 3,
       Event.glfwTerminate] =
        (processInput resizeEnv 0 resizeEnv.window false).1 ++
          [Event.glClearColor 1 1 1 1,
           Event.glClear GL_COLOR_BUFFER_BIT,
           Event.glUseProgram resizeEnv.shaderProgram,
           Event.glBindVertexArray resizeEnv.vao,
           Event.glDrawArrays GL_TRIANGLES 0 3,
           Event.glfwSwapBuffers resizeEnv.window,
           Event.glfwPollEvents] ++ rest ∧
        (rest = [] ∨ ∃ b r, rest = Event.glfwWindowShouldClose resizeEnv.window b :: r)) ∧
    (bodyCalls resizeEnv 0 7 3 1).filter Event.isGL =
      [Event.glClearColor 1 1 1 1,
       Event.glClear GL_COLOR_BUFFER_BIT,
       Event.glUseProgram 3,
       Event.glBindVertexArray 1,
       Event.glDrawArrays GL_TRIANGLES 0 3,
       Event.glViewport 0 0 1024 768] ∧
    (bodyCalls resizeEnv 1 7 3 1).filter Event.isGL =
      [Event.glClearColor 1 1 1 1,
       Event.glClear GL_COLOR_BUFFER_BIT,
       Event.glUseProgram 3,
       Event.glBindVertexArray 1,
       Event.glDrawArrays GL_TRIANGLES 0 3] ∧
    (bodyCalls resizeEnv 0 7 3 1).filter Event.isGL ≠
      (bodyCalls resizeEnv 1 7 3 1).filter Event.isGL := by
  have hgl0 : (bodyCalls resizeEnv 0 7 3 1).filter Event.isGL =
      [Event.glClearColor 1 1 1 1,
       Event.glClear GL_COLOR_BUFFER_BIT,
       Event.glUseProgram 3,
       Event.glBindVertexArray 1,
       Event.glDrawArrays GL_TRIANGLES 0 3,
       Event.glViewport 0 0 1024 768] := by
    simp [bodyCalls, drawCalls, pollCallbacks, framebuffer_size_callback, processInput,
      resizeEnv, escapeEnv, GLFW_PRESS, Event.isGL, List.filter_cons]
  have hgl1 : (bodyCalls resizeEnv 1 7 3 1).filter Event.isGL =
      [Event.glClearColor 1 1 1 1,
       Event.glClear GL_COLOR_BUFFER_BIT,
       Event.glUseProgram 3,
       Event.glBindVertexArray 1,
       Event.glDrawArrays GL_TRIANGLES 0 3] := by
    simp [bodyCalls, drawCalls, pollCallbacks, framebuffer_size_callback, processInput,
      resizeEnv, escapeEnv, GLFW_PRESS, Event.isGL, List.filter_cons]
  refine ⟨?_, ?_, hgl0, hgl1, ?_⟩
  · rw [resizeEnv_main]
    simp [iterationsFrom, iterationCalls, bodyCalls, drawCalls, pollCallbacks,
      framebuffer_size_callback, processInput, teardownCalls, resizeEnv, escapeEnv, GLFW_PRESS]
  · rintro ⟨rest, hpost, hrest⟩
    simp [processInput, resizeEnv, escapeEnv, GLFW_PRESS] at hpost
    rcases hrest with hnil | ⟨b, r, hr⟩
    · rw [hnil] at hpost
      simp at hpost
    · rw [hr] at hpost
      simp at hpost
  · rw [hgl0, hgl1]
    intro hne
    have := congrArg List.length hne
    simp at this

/-- C4: `processInput` leaves the close flag set exactly when the escape key is
reported pressed or the flag was set before, and it calls `glfwSetWindowShouldClose`
exactly when the key is reported pressed.  When startup succeeds, `glfwPollEvents`
never clears the flag, iteration `k` is reached and the key is reported pressed in
it, then iteration `k` still issues its whole frame (with the calls of the resize
callback, if any, inside `glfwPollEvents`), the next loop check sees the flag set, and
`main` issues the four teardown calls and returns 0. -/
theorem escape_closes_after_full_frame (env : Env) (k : Nat)
    (hs : ¬ startupFails env)
    (hpoll : ∀ i, env.pollEvents i true = true)
    (hrun : ∀ j, j ≤ k → closeFlagAt env j = false)
    (hesc : env.getKey k env.window GLFW_KEY_ESCAPE = GLFW_PRESS) :
    (∀ i w flag,
      (processInput env i w flag).2 =
        (if env.getKey i w GLFW_KEY_ESCAPE = GLFW_PRESS then true else flag) ∧
      (Event.glfwSetWindowShouldClose w true ∈ (processInput env i w flag).1 ↔
        env.getKey i w GLFW_KEY_ESCAPE = GLFW_PRESS)) ∧
    (∀ fuel, k + 1 < fuel →
      main env fuel =
        ⟨setupCalls env ++ iterationsFrom env 0 k ++
          [Event.glfwWindowShouldClose env.window false,
           Event.glfwGetKey env.window GLFW_KEY_ESCAPE GLFW_PRESS,
           Event.glfwSetWindowShouldClose env.window true,
           Event.glClearColor 1 1 1 1,
           Event.glClear GL_COLOR_BUFFER_BIT,
           Event.glUseProgram env.shaderProgram,
           Event.glBindVertexArray env.vao,
           Event.glDrawArrays GL_TRIANGLES 0 3,
           Event.glfwSwapBuffers env.window,
           Event.glfwPollEvents] ++
          pollCallbacks env k env.window ++
          [Event.glfwWindowShouldClose env.window true,
           Event.glDeleteVertexArrays 1 env.vao,
           Event.glDeleteBuffers 1 env.vbo,
           Event.glDeleteProgram env.shaderProgram,
           Event.glfwTerminate],
         some 0⟩) := by
  constructor
  · intro i w flag
    by_cases hk : env.getKey i w GLFW_KEY_ESCAPE = GLFW_PRESS <;> simp [processInput, hk]
  · intro fuel hfuel
    have hk : closeFlagAt env k = false := hrun k (le_refl k)
    have hnext : closeFlagAt env (0 + (k + 1)) = true := by
      rw [Nat.zero_add, closeFlagAt, hk]
      simp [frame, processInput, hesc, hpoll]
    have hloop := renderLoop_exits env (k + 1) 0 fuel
      (fun j hj => by rw [Nat.zero_add]; exact hrun j (by omega)) hnext hfuel
    have h0 : closeFlagAt env 0 = env.shouldClose0 := rfl
    rw [h0] at hloop
    rw [main_started env fuel hs, hloop, iterationsFrom_succ]
    simp [iterationCalls, bodyCalls, processInput, hesc, drawCalls, teardownCalls]

/-- C4 at `escapeEnv`, where the key is pressed in the second iteration and the window
is never resized, observed for three loop checks. -/
theorem escape_closes_after_full_frame_witness :
    ¬ startupFails escapeEnv ∧
    escapeEnv.getKey 1 escapeEnv.window GLFW_KEY_ESCAPE = GLFW_PRESS ∧
    main escapeEnv 3 =
      ⟨setupCalls escapeEnv ++ iterationsFrom escapeEnv 0 1 ++
        [Event.glfwWindowShouldClose 7 false,
         Event.glfwGetKey 7 GLFW_KEY_ESCAPE GLFW_PRESS,
         Event.glfwSetWindowShouldClose 7 true,
         Event.glClearColor 1 1 1 1,
         Event.glClear GL_COLOR_BUFFER_BIT,
         Event.glUseProgram 3,
         Event.glBindVertexArray 1,
         Event.glDrawArrays GL_TRIANGLES 0 3,
         Event.glfwSwapBuffers 7,
         Event.glfwPollEvents,
         Event.glfwWindowShouldClose 7 true,
         Event.glDeleteVertexArrays 1 1,
         Event.glDeleteBuffers 1 1,
         Event.glDeleteProgram 3,
         Event.glfwTerminate],
       some 0⟩ :=
  ⟨escapeEnv_started, rfl, by
    have h := (escape_closes_after_full_frame escapeEnv 1 escapeEnv_started (fun _ => rfl)
      escapeEnv_flags rfl).2 3 (by decide)
    simpa [pollCallbacks, escapeEnv] using h⟩

/-- C5: `checkCompilationOrLinking` issues exactly one status query, the compile
status for `SHADER` and the link status for `PROGRAM`, and returns true exactly when
that status is not zero.  On a zero status it then fetches the matching info log into
a buffer of 512 characters, so at most 511 characters of it, and prints one line
holding that text; on a non-zero status the query is its only call. -/
theorem checkCompilationOrLinking_contract (drv : Driver) (shader : Nat) :
    ((checkCompilationOrLinking drv shader shaderType.SHADER).2 = true ↔
        drv.shaderiv shader GL_COMPILE_STATUS ≠ 0) ∧
    ((checkCompilationOrLinking drv shader shaderType.PROGRAM).2 = true ↔
        drv.programiv shader GL_LINK_STATUS ≠ 0) ∧
    ((checkCompilationOrLinking drv shader shaderType.SHADER).1.filter Event.isStatusQuery =
        [Event.glGetShaderiv shader GL_COMPILE_STATUS (drv.shaderiv shader GL_COMPILE_STATUS)]) ∧
    ((checkCompilationOrLinking drv shader shaderType.PROGRAM).1.filter Event.isStatusQuery =
        [Event.glGetProgramiv shader GL_LINK_STATUS (drv.programiv shader GL_LINK_STATUS)]) ∧
    (drv.shaderiv shader GL_COMPILE_STATUS ≠ 0 →
      (checkCompilationOrLinking drv shader shaderType.SHADER).1 =
        [Event.glGetShaderiv shader GL_COMPILE_STATUS (drv.shaderiv shader GL_COMPILE_STATUS)]) ∧
    (drv.programiv shader GL_LINK_STATUS ≠ 0 →
      (checkCompilationOrLinking drv shader shaderType.PROGRAM).1 =
        [Event.glGetProgramiv shader GL_LINK_STATUS (drv.programiv shader GL_LINK_STATUS)]) ∧
    (drv.shaderiv shader GL_COMPILE_STATUS = 0 →
      (checkCompilationOrLinking drv shader shaderType.SHADER).1 =
        [Event.glGetShaderiv shader GL_COMPILE_STATUS 0,
         Event.glGetShaderInfoLog shader 512 ((drv.shaderInfoLog shader).take 511),
         Event.println ("Failed to compile the shader: " ++
           String.mk ((drv.shaderInfoLog shader).take 511))]) ∧
    (drv.programiv shader GL_LINK_STATUS = 0 →
      (checkCompilationOrLinking drv shader shaderType.PROGRAM).1 =
        [Event.glGetProgramiv shader GL_LINK_STATUS 0,
         Event.glGetProgramInfoLog shader 512 ((drv.programInfoLog shader).take 511),
         Event.println ("Failed to link the shader: " ++
           String.mk ((drv.programInfoLog shader).take 511))]) ∧
    ((drv.shaderInfoLog shader).take 511).length ≤ 511 ∧
    ((drv.programInfoLog shader).take 511).length ≤ 511 := by
  refine ⟨?_, ?_, ?_, ?_, ?_, ?_, ?_, ?_, ?_, ?_⟩
  · by_cases h : drv.shaderiv shader GL_COMPILE_STATUS = 0 <;>
      simp [checkCompilationOrLinking, h]
  · by_cases h : drv.programiv shader GL_LINK_STATUS = 0 <;>
      simp [checkCompilationOrLinking, h]
  · by_cases h : drv.shaderiv shader GL_COMPILE_STATUS = 0 <;>
      simp [checkCompilationOrLinking, h, Event.isStatusQuery, List.filter_cons]
  · by_cases h : drv.programiv shader GL_LINK_STATUS = 0 <;>
      simp [checkCompilationOrLinking, h, Event.isStatusQuery, List.filter_cons]
  · intro h
    simp [checkCompilationOrLinking, h]
  · intro h
    simp [checkCompilationOrLinking, h]
  · intro h
    simp [checkCompilationOrLinking, h, writeInfoLog]
  · intro h
    simp [checkCompilationOrLinking, h, writeInfoLog]
  · exact List.length_take_le _ _
  · exact List.length_take_le _ _

/-- C6: when a loop check of `main` sees the close flag set, the trace ends with
that check followed by `glDeleteVertexArrays(1, &vao)`, `glDeleteBuffers(1, &vbo)`,
`glDeleteProgram(shaderProgram)` and `glfwTerminate()`, and `main` returns 0.  The
three handles are the ones handed out by `glGenVertexArrays`, `glGenBuffers` and
`glCreateProgram` earlier in the trace, and the whole trace deletes each once. -/
theorem teardown_after_loop (env : Env) (fuel : Nat)
    (hexit : Event.glfwWindowShouldClose env.window true ∈ (main env fuel).trace) :
    (main env fuel).exitCode = some 0 ∧
    ∃ pre,
      (main env fuel).trace = pre ++
        [Event.glfwWindowShouldClose env.window true,
         Event.glDeleteVertexArrays 1 env.vao,
         Event.glDeleteBuffers 1 env.vbo,
         Event.glDeleteProgram env.shaderProgram,
         Event.glfwTerminate] ∧
      (∀ x ∈ pre, x ≠ Event.glfwWindowShouldClose env.window true) ∧
      Event.glGenVertexArrays 1 env.vao ∈ pre ∧
      Event.glGenBuffers 1 env.vbo ∈ pre ∧
      Event.glCreateProgram env.shaderProgram ∈ pre ∧
      (main env fuel).trace.countP Event.isDeleteVertexArrays = 1 ∧
      (main env fuel).trace.countP Event.isDeleteBuffers = 1 ∧
      (main env fuel).trace.countP Event.isDeleteProgram = 1 := by
  have hs : ¬ startupFails env := by
    intro hs
    have := ((main_fails env fuel hs).2 _ hexit).1
    simp [Event.isLoopOnly] at this
  have hl : (renderLoop env env.window env.shaderProgram env.vao fuel 0 env.shouldClose0).2
      = true := by
    rw [main_started_trace env fuel hs] at hexit
    simp only [List.mem_append] at hexit
    rcases hexit with h | h | h
    · have := setupCalls_not_loopOnly env _ h
      simp [Event.isLoopOnly] at this
    · exact renderLoop_left_of_mem env _ _ _ fuel 0 _ h
    · split at h
      · assumption
      · simp at h
  obtain ⟨l, hlast, hne⟩ := renderLoop_left_last env _ _ _ fuel 0 _ hl
  have hcount : ∀ q : Event → Bool, (∀ e : Event, e.isLoopCall = true → q e = false) →
      (main env fuel).trace.countP q =
        (setupCalls env).countP q + (teardownCalls env).countP q := by
    intro q hq
    rw [main_started_trace env fuel hs, hl]
    simp [List.countP_append, renderLoop_countP_zero env _ _ _ fuel 0 _ q hq]
  refine ⟨by rw [main_started_exitCode env fuel hs, hl]; rfl, setupCalls env ++ l, ?_, ?_, ?_,
    ?_, ?_, ?_, ?_, ?_⟩
  · rw [main_started_trace env fuel hs, hl, hlast]
    simp [teardownCalls]
  · intro x hx
    rcases List.mem_append.1 hx with h | h
    · intro hc
      have := setupCalls_not_loopOnly env x h
      rw [hc] at this
      simp [Event.isLoopOnly] at this
    · exact hne x h
  · apply List.mem_append_left
    cases ha : env.apple <;>
      simp [setupCalls, preCheckCalls, windowCalls, loaderCalls, geometryCalls, ha]
  · apply List.mem_append_left
    cases ha : env.apple <;>
      simp [setupCalls, preCheckCalls, windowCalls, loaderCalls, geometryCalls, ha]
  · apply List.mem_append_left
    cases ha : env.apple <;>
      simp [setupCalls, preCheckCalls, windowCalls, loaderCalls, geometryCalls, ha, programCalls]
  · rw [hcount Event.isDeleteVertexArrays (fun e he => (isLoopCall_not_setup he).1)]
    cases ha : env.apple <;>
      simp [setupCalls, preCheckCalls, windowCalls, loaderCalls, geometryCalls,
        vertexShaderCalls, ha, fragmentShaderCalls, programCalls, vertexQuery, fragmentQuery,
        linkQuery, teardownCalls, Event.isDeleteVertexArrays, List.countP_cons]
  · rw [hcount Event.isDeleteBuffers (fun e he => (isLoopCall_not_setup he).2.1)]
    cases ha : env.apple <;>
      simp [setupCalls, preCheckCalls, windowCalls, loaderCalls, geometryCalls,
        vertexShaderCalls, ha, fragmentShaderCalls, programCalls, vertexQuery, fragmentQuery,
        linkQuery, teardownCalls, Event.isDeleteBuffers, List.countP_cons]
  · rw [hcount Event.isDeleteProgram (fun e he => (isLoopCall_not_setup he).2.2.1)]
    cases ha : env.apple <;>
      simp [setupCalls, preCheckCalls, windowCalls, loaderCalls, geometryCalls,
        vertexShaderCalls, ha, fragmentShaderCalls, programCalls, vertexQuery, fragmentQuery,
        linkQuery, teardownCalls, Event.isDeleteProgram, List.countP_cons]

/-- C6 at `escapeEnv`, observed for three loop checks. -/
theorem teardown_after_loop_witness :
    Event.glfwWindowShouldClose escapeEnv.window true ∈ (main escapeEnv 3).trace ∧
    (main escapeEnv 3).exitCode = some 0 :=
  have h : Event.glfwWindowShouldClose escapeEnv.window true ∈ (main escapeEnv 3).trace := by
    rw [escapeEnv_main]
    simp [escapeEnv]
  ⟨h, (teardown_after_loop escapeEnv 3 h).1⟩

/-- C7: in every run that gets past the window and loader checks, the trace holds
the seven geometry calls in a row; `glBufferData` occurs once in the whole trace,
with target `GL_ARRAY_BUFFER`, size nine floats, the nine values of `vertices` and
usage `GL_STATIC_DRAW`, issued while `vao` is the bound vertex array and `vbo` the
bound array buffer; `glVertexAttribPointer` occurs once, with index 0, 3 components,
`GL_FLOAT`, `GL_FALSE`, stride three floats and offset 0, followed by
`glEnableVertexAttribArray(0)`.  With 4-byte floats the size is 36 and the stride 12.
The nine values lie between -1 and 1 and every third one is 0. -/
theorem geometry_upload (env : Env) (fuel : Nat) (hw : env.window ≠ 0) (hl : env.loader ≠ 0) :
    (∃ pre post,
      (main env fuel).trace = pre ++
        [Event.glGenVertexArrays 1 env.vao,
         Event.glBindVertexArray env.vao,
         Event.glGenBuffers 1 env.vbo,
         Event.glBindBuffer GL_ARRAY_BUFFER env.vbo,
         Event.glBufferData GL_ARRAY_BUFFER (9 * env.sizeofFloat)
           [-1/2, -1/2, 0, 1/2, -1/2, 0, 0, 1/2, 0] GL_STATIC_DRAW,
         Event.glVertexAttribPointer 0 3 GL_FLOAT GL_FALSE (3 * env.sizeofFloat) 0,
         Event.glEnableVertexAttribArray 0] ++ post ∧
      boundVertexArray (pre ++
        [Event.glGenVertexArrays 1 env.vao,
         Event.glBindVertexArray env.vao,
         Event.glGenBuffers 1 env.vbo,
         Event.glBindBuffer GL_ARRAY_BUFFER env.vbo]) = env.vao ∧
      boundBuffer GL_ARRAY_BUFFER (pre ++
        [Event.glGenVertexArrays 1 env.vao,
         Event.glBindVertexArray env.vao,
         Event.glGenBuffers 1 env.vbo,
         Event.glBindBuffer GL_ARRAY_BUFFER env.vbo]) = env.vbo) ∧
    (main env fuel).trace.countP Event.isBufferData = 1 ∧
    (main env fuel).trace.countP Event.isVertexAttribPointer = 1 ∧
    vertices = [-1/2, -1/2, 0, 1/2, -1/2, 0, 0, 1/2, 0] ∧
    (env.sizeofFloat = 4 → 9 * env.sizeofFloat = 36 ∧ 3 * env.sizeofFloat = 12) ∧
    (∀ x ∈ vertices, -1 ≤ x ∧ x ≤ 1) ∧
    (∀ i, i < 3 → vertices[3 * i + 2]? = some 0) := by
  have hv : vertices = [-1/2, -1/2, 0, 1/2, -1/2, 0, 0, 1/2, 0] := by
    norm_num [vertices]
  obtain ⟨post, htrace, hb, ha⟩ := main_after_geometry env fuel hw hl
  refine ⟨⟨windowCalls env ++ loaderCalls env, post, ?_, ?_, ?_⟩, ?_, ?_, hv, ?_, ?_, ?_⟩
  · rw [htrace, ← hv]
    simp [geometryCalls, vertices]
  · cases hap : env.apple <;> simp [boundVertexArray, windowCalls, loaderCalls, hap]
  · cases hap : env.apple <;> simp [boundBuffer, windowCalls, loaderCalls, hap]
  · rw [htrace, List.countP_append, hb]
    cases hap : env.apple <;>
      simp [windowCalls, loaderCalls, geometryCalls, hap, Event.isBufferData, List.countP_cons]
  · rw [htrace, List.countP_append, ha]
    cases hap : env.apple <;>
      simp [windowCalls, loaderCalls, geometryCalls, hap, Event.isVertexAttribPointer,
        List.countP_cons]
  · intro h4
    omega
  · rw [hv]
    intro x hx
    simp only [List.mem_cons, List.mem_singleton, List.not_mem_nil, or_false] at hx
    rcases hx with h | h | h | h | h | h | h | h | h <;> subst h <;> norm_num
  · rw [hv]
    intro i hi
    interval_cases i <;> rfl

/-- C7 at `escapeEnv`, observed for three loop checks. -/
theorem geometry_upload_witness :
    escapeEnv.window ≠ 0 ∧ escapeEnv.loader ≠ 0 ∧
    (main escapeEnv 3).trace.countP Event.isBufferData = 1 :=
  ⟨by decide, by decide, (geometry_upload escapeEnv 3 (by decide) (by decide)).2.1⟩

/-- C8: `glfwTerminate` is the last call of `main` when the window is null, when
the loader fails, and when `main` returns 0; but when a compile or link check fails
`main` returns -1 without ever calling `glfwTerminate`. -/
theorem glfwTerminate_on_exit_paths (env : Env) (fuel : Nat) :
    (env.window = 0 →
      (main env fuel).exitCode = some (-1) ∧
        ∃ pre, (main env fuel).trace = pre ++ [Event.glfwTerminate]) ∧
    (env.window ≠ 0 → env.loader = 0 →
      (main env fuel).exitCode = some (-1) ∧
        ∃ pre, (main env fuel).trace = pre ++ [Event.glfwTerminate]) ∧
    ((main env fuel).exitCode = some 0 →
      ∃ pre, (main env fuel).trace = pre ++ [Event.glfwTerminate]) ∧
    (env.window ≠ 0 → env.loader ≠ 0 →
      (vertexStatus env = 0 ∨ fragmentStatus env = 0 ∨ linkStatus env = 0) →
      (main env fuel).exitCode = some (-1) ∧
        ∀ x ∈ (main env fuel).trace, x.isTerminate = false) := by
  refine ⟨fun hw => ?_, fun hw hl => ?_, fun h0 => ?_, fun hw hl h => ?_⟩
  · rw [main_window_null env fuel hw]
    exact ⟨rfl, windowCalls env ++ [Event.println "Failed to create GLFW window"], by simp⟩
  · rw [main_loader_fails env fuel hw hl]
    exact ⟨rfl, windowCalls env ++ loaderCalls env ++
      [Event.println "Failed to load OpenGL functions"], by simp⟩
  · have hs : ¬ startupFails env := by
      intro hs
      rw [(main_fails env fuel hs).1] at h0
      simp at h0
    rw [main_started_exitCode env fuel hs] at h0
    have hl : (renderLoop env env.window env.shaderProgram env.vao fuel 0 env.shouldClose0).2
        = true := by
      by_contra hl
      simp [hl] at h0
    rw [main_started_trace env fuel hs, hl]
    exact ⟨setupCalls env ++
      (renderLoop env env.window env.shaderProgram env.vao fuel 0 env.shouldClose0).1 ++
      [Event.glDeleteVertexArrays 1 env.vao, Event.glDeleteBuffers 1 env.vbo,
       Event.glDeleteProgram env.shaderProgram], by simp [teardownCalls]⟩
  · have hs : startupFails env := by
      unfold startupFails
      tauto
    exact ⟨(main_fails env fuel hs).1, main_shader_failure_no_terminate env fuel hw hl h⟩

/-- C8 at `brokenShaderEnv`: the vertex shader does not compile, `main` returns -1
and its last call is the printing of the log, not `glfwTerminate`. -/
theorem glfwTerminate_missing_after_compile_failure :
    main brokenShaderEnv 3 =
      ⟨[Event.glfwInit,
        Event.glfwWindowHint GLFW_CONTEXT_VERSION_MAJOR 3,
        Event.glfwWindowHint GLFW_CONTEXT_VERSION_MINOR 3,
        Event.glfwWindowHint GLFW_OPENGL_PROFILE GLFW_OPENGL_CORE_PROFILE,
        Event.glfwCreateWindow 800 600 "Learn OpenGl" 7,
        Event.glfwMakeContextCurrent 7,
        Event.glfwSetFramebufferSizeCallback 7,
        Event.gladLoadGLLoader 1,
        Event.glGenVertexArrays 1 1,
        Event.glBindVertexArray 1,
        Event.glGenBuffers 1 1,
        Event.glBindBuffer GL_ARRAY_BUFFER 1,
        Event.glBufferData GL_ARRAY_BUFFER 36 vertices GL_STATIC_DRAW,
        Event.glVertexAttribPointer 0 3 GL_FLOAT GL_FALSE 12 0,
        Event.glEnableVertexAttribArray 0,
        Event.glCreateShader GL_VERTEX_SHADER 1,
        Event.glShaderSource 1 1 vertexShaderSource,
        Event.glCompileShader 1,
        Event.glGetShaderiv 1 GL_COMPILE_STATUS 0,
        Event.glGetShaderInfoLog 1 512 ['b', 'a', 'd'],
        Event.println "Failed to compile the shader: bad"],
       some (-1)⟩ ∧
    Event.glfwTerminate ∉ (main brokenShaderEnv 3).trace := by
  constructor
  · rw [main_vertex_fails brokenShaderEnv 3 (by decide) (by decide) (by decide)]
    simp [preCheckCalls, windowCalls, loaderCalls, geometryCalls, vertexShaderCalls,
      checkCompilationOrLinking, brokenShaderEnv, escapeEnv, brokenDriver, writeInfoLog,
      MAJOR_VERSION, MINOR_VERSION, WIDTH, HEIGHT, TITLE, vertices]
  · intro hmem
    have := ((glfwTerminate_on_exit_paths brokenShaderEnv 3).2.2.2 (by decide) (by decide)
      (Or.inl (by decide))).2 _ hmem
    simp [Event.isTerminate] at this

/-- C9: when all startup checks pass, the two `glDeleteShader` calls, for the vertex
shader and then the fragment shader, come right after the link-status query that
reported success, and nothing but the first loop check follows them before the loop;
no other `glDeleteShader` call occurs, and a `glDeleteProgram` call occurs only after
a loop check has seen the close flag set.  When a startup check fails, the trace has
no `glDeleteShader` call. -/
theorem shader_objects_released (env : Env) (fuel : Nat) :
    (¬ startupFails env →
      linkStatus env ≠ 0 ∧
      (∃ pre post,
        (main env fuel).trace = pre ++
          Event.glGetProgramiv env.shaderProgram GL_LINK_STATUS (linkStatus env) ::
          Event.glDeleteShader env.vertexShader ::
          Event.glDeleteShader env.fragmentShader :: post ∧
        (∀ x ∈ pre, x.isDeleteShader = false ∧ x.isLoopOnly = false) ∧
        (∀ x ∈ post, x.isDeleteShader = false) ∧
        (post = [] ∨ ∃ b r, post = Event.glfwWindowShouldClose env.window b :: r)) ∧
      (∀ a e b, (main env fuel).trace = a ++ e :: b → e.isDeleteProgram = true →
        Event.glfwWindowShouldClose env.window true ∈ a)) ∧
    (startupFails env → ∀ x ∈ (main env fuel).trace, x.isDeleteShader = false) := by
  refine ⟨fun hs => ⟨?_, ?_, ?_⟩, fun hs x hx => ((main_fails env fuel hs).2 x hx).2⟩
  · simp only [startupFails, not_or] at hs
    exact hs.2.2.2.2
  · obtain ⟨pre, hsplit, hpre⟩ := setupCalls_deleteShader_split env
    refine ⟨pre, (renderLoop env env.window env.shaderProgram env.vao fuel 0 env.shouldClose0).1
      ++ (if (renderLoop env env.window env.shaderProgram env.vao fuel 0 env.shouldClose0).2
        then teardownCalls env else []), ?_, hpre, ?_, ?_⟩
    · rw [main_started_trace env fuel hs, hsplit]
      simp [linkQuery]
    · intro x hx
      rcases List.mem_append.1 hx with h | h
      · exact (isLoopCall_not_setup (renderLoop_calls_loopCall env _ _ _ fuel 0 _ x h)).2.2.2.1
      · split at h
        · simp [teardownCalls] at h
          rcases h with h | h | h | h <;> subst h <;> rfl
        · simp at h
    · rcases renderLoop_head env env.window env.shaderProgram env.vao fuel 0 env.shouldClose0
        with h | ⟨b, r, h⟩
      · cases fuel with
        | zero => left; simp [renderLoop_zero]
        | succ f =>
          cases hc : env.shouldClose0 with
          | true => rw [hc, renderLoop_succ_true] at h; simp at h
          | false => rw [hc, renderLoop_succ_false] at h; simp at h
      · right
        exact ⟨b, _, by rw [h]; rfl⟩
  · intro a e b htrace he
    rw [main_started_trace env fuel hs] at htrace
    obtain ⟨mid, ha, h2⟩ := split_after_left Event.isDeleteProgram htrace he
      (fun x hx => (setupCalls_no_deleteProgram env x hx).1)
    obtain ⟨mid2, hmid, h3⟩ := split_after_left Event.isDeleteProgram h2 he
      (fun x hx => (isLoopCall_not_setup (renderLoop_calls_loopCall env _ _ _ fuel 0 _ x hx)).2.2.1)
    cases hl : (renderLoop env env.window env.shaderProgram env.vao fuel 0 env.shouldClose0).2
    · rw [hl] at h3
      simp at h3
    · obtain ⟨l, hlast, -⟩ := renderLoop_left_last env _ _ _ fuel 0 _ hl
      rw [ha, hmid, hlast]
      simp

/-- C9 at `escapeEnv`, observed for three loop checks. -/
theorem shader_objects_released_witness :
    ¬ startupFails escapeEnv ∧
    (∀ a e b, (main escapeEnv 3).trace = a ++ e :: b → e.isDeleteProgram = true →
        Event.glfwWindowShouldClose escapeEnv.window true ∈ a) :=
  ⟨escapeEnv_started, ((shader_objects_released escapeEnv 3).1 escapeEnv_started).2.2⟩

/-- C10: the sizes passed to `glBufferData`, `glVertexAttribPointer` and
`glDrawArrays` in a run of `main` fit together: every vertex the draw call reads,
from `first` up to `first + count`, lies inside the uploaded buffer, the last one
ends where the buffer ends, and `count` is 3, one whole triangle. -/
theorem draw_reads_inside_buffer (env : Env) (fuel : Nat)
    (target size usage : Nat) (data : List ℚ)
    (index comps type normalized stride pointer : Nat) (mode first count : Nat)
    (hb : Event.glBufferData target size data usage ∈ (main env fuel).trace)
    (ha : Event.glVertexAttribPointer index comps type normalized stride pointer ∈
      (main env fuel).trace)
    (hd : Event.glDrawArrays mode first count ∈ (main env fuel).trace) :
    (∀ i, first ≤ i → i < first + count →
      pointer + i * stride + comps * env.sizeofFloat ≤ size) ∧
    pointer + (first + count) * stride = size ∧
    size = data.length * env.sizeofFloat ∧
    mode = GL_TRIANGLES ∧ first = 0 ∧ count = 3 ∧ count % 3 = 0 ∧ count / 3 = 1 := by
  have hs : ¬ startupFails env := by
    intro hs
    have := ((main_fails env fuel hs).2 _ hd).1
    simp [Event.isLoopOnly] at this
  rw [main_started_trace env fuel hs] at hb ha hd
  simp only [List.mem_append] at hb ha hd
  have hdraw : mode = GL_TRIANGLES ∧ first = 0 ∧ count = 3 := by
    rcases hd with h | h | h
    · have := setupCalls_not_loopOnly env _ h
      simp [Event.isLoopOnly] at this
    · exact renderLoop_draw env _ _ _ fuel 0 _ _ _ _ h
    · split at h
      · simp [teardownCalls] at h
      · simp at h
  have hbuf : size = vertices.length * env.sizeofFloat ∧ data = vertices := by
    rcases hb with h | h | h
    · cases hap : env.apple <;>
        simp [setupCalls, preCheckCalls, windowCalls, loaderCalls, geometryCalls,
          vertexShaderCalls, hap, fragmentShaderCalls, programCalls, vertexQuery,
          fragmentQuery, linkQuery] at h <;> exact ⟨h.2.1, h.2.2.1⟩
    · have := renderLoop_calls_loopCall env _ _ _ fuel 0 _ _ h
      simp [Event.isLoopCall, Event.isLoopOnly] at this
    · split at h
      · simp [teardownCalls] at h
      · simp at h
  have hattr : comps = 3 ∧ stride = 3 * env.sizeofFloat ∧ pointer = 0 := by
    rcases ha with h | h | h
    · cases hap : env.apple <;>
        simp [setupCalls, preCheckCalls, windowCalls, loaderCalls, geometryCalls,
          vertexShaderCalls, hap, fragmentShaderCalls, programCalls, vertexQuery,
          fragmentQuery, linkQuery] at h <;> exact ⟨h.2.1, h.2.2.2.2.1, h.2.2.2.2.2⟩
    · have := renderLoop_calls_loopCall env _ _ _ fuel 0 _ _ h
      simp [Event.isLoopCall, Event.isLoopOnly] at this
    · split at h
      · simp [teardownCalls] at h
      · simp at h
  obtain ⟨hm, hf, hc⟩ := hdraw
  obtain ⟨hsize, hdata⟩ := hbuf
  obtain ⟨hcomps, hstride, hptr⟩ := hattr
  have hlen : vertices.length = 9 := rfl
  subst hm hf hc hcomps hstride hptr hdata
  rw [hlen] at hsize
  subst hsize
  refine ⟨?_, by ring, by rw [hlen], rfl, rfl, rfl, rfl, rfl⟩
  intro i _ hi
  have hi3 : i < 3 := by omega
  interval_cases i <;> omega

/-- C10 at `escapeEnv`, observed for three loop checks. -/
theorem draw_reads_inside_buffer_witness :
    Event.glBufferData GL_ARRAY_BUFFER 36 vertices GL_STATIC_DRAW ∈ (main escapeEnv 3).trace ∧
    Event.glVertexAttribPointer 0 3 GL_FLOAT GL_FALSE 12 0 ∈ (main escapeEnv 3).trace ∧
    Event.glDrawArrays GL_TRIANGLES 0 3 ∈ (main escapeEnv 3).trace ∧
    (∀ i, 0 ≤ i → i < 0 + 3 → 0 + i * 12 + 3 * escapeEnv.sizeofFloat ≤ 36) ∧
    0 + (0 + 3) * 12 = 36 :=
  ⟨escapeEnv_trace_mem.1, escapeEnv_trace_mem.2.1, escapeEnv_trace_mem.2.2,
    (draw_reads_inside_buffer escapeEnv 3 GL_ARRAY_BUFFER 36 GL_STATIC_DRAW vertices
      0 3 GL_FLOAT GL_FALSE 12 0 GL_TRIANGLES 0 3
      escapeEnv_trace_mem.1 escapeEnv_trace_mem.2.1 escapeEnv_trace_mem.2.2).1,
    (draw_reads_inside_buffer escapeEnv 3 GL_ARRAY_BUFFER 36 GL_STATIC_DRAW vertices
      0 3 GL_FLOAT GL_FALSE 12 0 GL_TRIANGLES 0 3
      escapeEnv_trace_mem.1 escapeEnv_trace_mem.2.1 escapeEnv_trace_mem.2.2).2.1⟩

end HelloTriangle
